import Mathlib

set_option maxRecDepth 16000

/-!
Verification of the SQL-generation core of a Dataform/BigQuery model factory.

The JavaScript sources (`includes/helpers/...`) are shallowly embedded below:
pure functions become Lean functions over `String`/`List`; the ambient clock
(`new Date()` / `Date.now()`) becomes an explicit `Clock` argument; the Dataform
project configuration consulted by `WorkflowConfig` becomes an explicit `Env`
argument; JavaScript objects with optional / absent properties become structures
with `Option` fields.  JavaScript truthiness on those fields is modelled by the
`jsStrTruthy` / `jsNumTruthy` / ... helpers.  Branches of the source that can
only fire on values outside these well-typed shapes (e.g. "uniqueKeys must be an
array" when the field holds a non-array) are unreachable in the embedding and
are noted at the corresponding definition.
-/

/-! ## JavaScript semantics helpers -/

/-- Truthiness of an optional string property: absent and `""` are falsy. -/
def jsStrTruthy : Option String → Bool
  | some s => !(s == "")
  | none => false

/-- Truthiness of an optional numeric property: absent and `0` are falsy. -/
def jsNumTruthy : Option Int → Bool
  | some n => !(n == 0)
  | none => false

/-- Truthiness of an optional boolean property. -/
def jsBoolTruthy : Option Bool → Bool
  | some b => b
  | none => false

/-- Truthiness of an optional array property: arrays are truthy even when empty. -/
def jsArrTruthy {α : Type} : Option (List α) → Bool
  | some _ => true
  | none => false

/-- JavaScript `a || d` for an optional string `a`. -/
def jsStrOr (o : Option String) (d : String) : String :=
  match o with
  | some s => if s == "" then d else s
  | none => d

/-- JavaScript `a || d` for an optional number `a` (`0` falls back to `d`). -/
def jsNumOr (o : Option Int) (d : Int) : Int :=
  match o with
  | some n => if n == 0 then d else n
  | none => d

/-- JavaScript `a || d` for an optional array `a` (arrays are always truthy). -/
def jsArrOr {α : Type} (o : Option (List α)) (d : List α) : List α :=
  match o with
  | some l => l
  | none => d

/-- JavaScript string interpolation of a possibly-absent array element:
`${xs[i]}` renders as `"undefined"` when the index is out of range. -/
def jsIdx (l : List String) (i : Nat) : String :=
  (l.get? i).getD "undefined"

/-- JavaScript `String.prototype.padEnd(n)`: pad with spaces up to length `n`. -/
def jsPadEnd (s : String) (n : Nat) : String :=
  s ++ String.mk (List.replicate (n - s.length) ' ')

/-- Remove every occurrence of the characters in `bad` (models `replace(/[...]/g, '')`). -/
def stripChars (bad : List Char) (s : String) : String :=
  String.mk (s.data.filter (fun c => !bad.contains c))

/-- Worker for `jsSplitChar`, structurally recursive on the remaining input. -/
def jsSplitCharGo (sep : Char) (acc : List Char) : List Char → List String
  | [] => [String.mk acc.reverse]
  | c :: cs =>
    if c = sep then String.mk acc.reverse :: jsSplitCharGo sep [] cs
    else jsSplitCharGo sep (c :: acc) cs

/-- JavaScript `String.prototype.split(sep)` for a one-character separator. -/
def jsSplitChar (sep : Char) (s : String) : List String :=
  jsSplitCharGo sep [] s.data

/-- Worker for `jsReplaceAll`, structurally recursive on the input.  A positive
`skip` means that many input characters belong to the previously matched
(non-empty) pattern occurrence and are consumed without being copied. -/
def jsReplaceAllGo (pat rep : List Char) : Nat → List Char → List Char
  | _, [] => []
  | n + 1, _ :: cs => jsReplaceAllGo pat rep n cs
  | 0, c :: cs =>
    if pat.isPrefixOf (c :: cs) then rep ++ jsReplaceAllGo pat rep (pat.length - 1) cs
    else c :: jsReplaceAllGo pat rep 0 cs

/-- JavaScript `s.replace(new RegExp(pat, 'g'), rep)` for a literal
(non-empty) pattern. -/
def jsReplaceAll (s pat rep : String) : String :=
  String.mk (jsReplaceAllGo pat.data rep.data 0 s.data)

/-- Ambient clock observed by a single generation call: `dateStr` is the
`new Date().toISOString().split('T')[0]` date part, `nowMs` is `Date.now()`. -/
structure Clock where
  dateStr : String
  nowMs : Nat

/-- Dataform project configuration consulted by `WorkflowConfig`
(assertion dataset overrides from CLI / `workflow_settings.yaml`). -/
structure Env where
  assertionSchema : Option String := none
  defaultAssertionDataset : Option String := none

/-! ## Configuration data model (the JavaScript `factoryConfig` object) -/

/-- One `assertions.data_quality[]` check object. -/
structure DQCheck where
  type : Option String := none
  column : Option String := none
  columns : Option (List String) := none
  values : Option (List String) := none
  refTable : Option String := none
  refColumn : Option String := none

/-- One `assertions.business_rules[]` check object.  `percentage` is restricted
to integers in the embedding (the source allows any JS number). -/
structure BRCheck where
  type : Option String := none
  dateColumn : Option String := none
  maxAgeHours : Option Int := none
  minRows : Option Int := none
  maxRows : Option Int := none
  condition : Option String := none
  percentage : Option Int := none

/-- The `assertions` block of a factory configuration. -/
structure AssertionsBlock where
  columns : Option (List String) := none
  data_quality : Option (List DQCheck) := none
  business_rules : Option (List BRCheck) := none

/-- The `factoryConfig` object.  `extraProps` lists the names of any properties
outside the known set (they only feed the unknown-property warning). -/
structure JSConfig where
  type : Option String := none
  uniqueKeys : Option (List String) := none
  partitionBy : Option String := none
  clusterBy : Option (List String) := none
  description : Option String := none
  begin_daysBack : Option Int := none
  end_daysBack : Option Int := none
  stagingDataset : Option String := none
  fullRefresh : Option Bool := none
  timestampInStagingName : Option Bool := none
  materialized : Option Bool := none
  autoRefresh : Option Bool := none
  refreshInterval : Option Int := none
  labels : Option (List (String × String)) := none
  partitionExpirationDays : Option Int := none
  assertions : Option AssertionsBlock := none
  extraProps : List String := []

/-- The `mergeConfig` object built inside `IncrementalPattern.generate`
(defaults already applied, JavaScript `||` semantics). -/
structure MergeConfig where
  uniqueKeys : List String
  partitionBy : Option String
  clusterBy : List String
  description : String
  labels : List (String × String)
  partitionExpirationDays : Option Int

/-- The table-option fields consumed by `TableOptions` / `TableBuilder`.
Presence (`Option`) mirrors JavaScript property presence so that truthiness
tests behave identically whether the caller passes the raw `factoryConfig`
or the defaulted `mergeConfig`. -/
structure TBConfig where
  partitionBy : Option String
  clusterBy : Option (List String)
  description : Option String
  labels : Option (List (String × String))
  partitionExpirationDays : Option Int

/-- View of a raw `factoryConfig` as table-option input. -/
def JSConfig.tb (c : JSConfig) : TBConfig :=
  { partitionBy := c.partitionBy
    clusterBy := c.clusterBy
    description := c.description
    labels := c.labels
    partitionExpirationDays := c.partitionExpirationDays }

/-- View of a defaulted `mergeConfig` as table-option input: every field is
present (`config.partitionBy || null`, `config.clusterBy || []`,
`config.description || ''`, `config.labels || {}`). -/
def MergeConfig.tb (c : MergeConfig) : TBConfig :=
  { partitionBy := c.partitionBy
    clusterBy := some c.clusterBy
    description := some c.description
    labels := some c.labels
    partitionExpirationDays := c.partitionExpirationDays }

/-! ## `utilities/table-options.js` -/

namespace TableOptions

/-- `TableOptions.build(config)`: `PARTITION BY` / `CLUSTER BY` clauses,
newline-prefixed, or `''` when no option applies. -/
def build (config : TBConfig) : String :=
  let options :=
    (if jsStrTruthy config.partitionBy then
      ["PARTITION BY " ++ config.partitionBy.getD ""] else []) ++
    (if jsArrTruthy config.clusterBy && (config.clusterBy.getD []).length > 0 then
      ["CLUSTER BY " ++ String.intercalate ", " (config.clusterBy.getD [])] else [])
  if options.length > 0 then "\n" ++ String.intercalate "\n" options else ""

end TableOptions

/-! ## `core/table-builder.js` -/

namespace TableBuilder

/-- `TableBuilder._buildTableOptions(config)` (same clauses as
`TableOptions.build` but without the leading newline). -/
def _buildTableOptions (config : TBConfig) : String :=
  let options :=
    (if jsStrTruthy config.partitionBy then
      ["PARTITION BY " ++ config.partitionBy.getD ""] else []) ++
    (if jsArrTruthy config.clusterBy && (config.clusterBy.getD []).length > 0 then
      ["CLUSTER BY " ++ String.intercalate ", " (config.clusterBy.getD [])] else [])
  if options.length > 0 then String.intercalate "\n" options else ""

/-- `TableBuilder._buildTableMetadata(config)`: `OPTIONS(...)` with description,
labels and partition expiration; `''` when none applies.  Note that a present
but empty `labels` object is truthy in JavaScript and yields `labels=[]`. -/
def _buildTableMetadata (config : TBConfig) : String :=
  let options :=
    (if jsStrTruthy config.description then
      ["description=\"" ++ config.description.getD "" ++ "\""] else []) ++
    (if jsArrTruthy config.labels then
      ["labels=[" ++ String.intercalate ", "
        ((config.labels.getD []).map
          (fun kv => "(\"" ++ kv.1 ++ "\", \"" ++ kv.2 ++ "\")")) ++ "]"] else []) ++
    (if jsNumTruthy config.partitionExpirationDays then
      ["partition_expiration_days=" ++ toString (config.partitionExpirationDays.getD 0)]
     else [])
  if options.length > 0 then "OPTIONS(" ++ String.intercalate ", " options ++ ")" else ""

/-- `TableBuilder.generateCreateTableSQL(targetTable, stagingTable, config)`. -/
def generateCreateTableSQL (targetTable stagingTable : String) (config : TBConfig) : String :=
  let sql0 := "CREATE TABLE IF NOT EXISTS " ++ targetTable
  let options := _buildTableOptions config
  let sql1 := if options == "" then sql0 else sql0 ++ "\n" ++ options
  let tableOptions := _buildTableMetadata config
  let sql2 := if tableOptions == "" then sql1 else sql1 ++ "\n" ++ tableOptions
  sql2 ++ "\nAS (\n  SELECT * FROM `" ++ stagingTable ++ "` WHERE FALSE\n)"

end TableBuilder

/-! ## `core/schema-manager.js` -/

namespace SchemaManager

/-- `SchemaManager.generateSchemaSQL(targetTable, stagingTable, uniqueKeys)`:
the INFORMATION_SCHEMA query whose execution yields the four scalar strings
`update_set`, `insert_cols`, `insert_vals`, `join_condition`. -/
def generateSchemaSQL (targetTable stagingTable : String) (uniqueKeys : List String) : String :=
  let cleanTarget := stripChars ['`'] targetTable
  let tableParts := jsSplitChar '.' cleanTarget
  let project := jsIdx tableParts 0
  let dataset := if tableParts.length > 1 then jsIdx tableParts 1 else jsIdx tableParts 0
  let table :=
    if tableParts.length > 2 then jsIdx tableParts 2
    else jsStrOr (tableParts.get? 1) (jsIdx tableParts 0)
  let stagingParts := jsSplitChar '.' (stripChars ['`'] stagingTable)
  let stagingDataset := jsIdx stagingParts 1
  let stagingTableName := jsIdx stagingParts 2
  let keyColumnsStr := String.intercalate ", " (uniqueKeys.map (fun col => "'" ++ col ++ "'"))
  let joinCondition := String.intercalate " AND "
    (uniqueKeys.map (fun col => "target." ++ col ++ " = source." ++ col))
  "\n      WITH table_exists AS (\n        SELECT COUNT(*) > 0 AS target_exists \n        FROM \n          `"
    ++ project ++ "." ++ dataset
    ++ "`.INFORMATION_SCHEMA.TABLES \n        WHERE table_name = '" ++ table
    ++ "'\n      ),\n      target_columns AS (\n        SELECT column_name, data_type, is_nullable, column_default\n        FROM \n          `"
    ++ project ++ "." ++ dataset
    ++ "`.INFORMATION_SCHEMA.COLUMNS \n        WHERE table_name = '" ++ table
    ++ "'\n        ORDER BY ordinal_position\n      ),\n      staging_columns AS (\n        SELECT column_name, data_type, is_nullable, column_default\n        FROM \n          `"
    ++ project ++ "." ++ stagingDataset
    ++ "`.INFORMATION_SCHEMA.COLUMNS \n        WHERE table_name = '" ++ stagingTableName
    ++ "'\n        ORDER BY ordinal_position\n      ),\n      final_columns AS (\n        SELECT \n          CASE \n            WHEN (SELECT target_exists FROM table_exists) \n            THEN target_columns.column_name \n            ELSE staging_columns.column_name \n          END AS column_name,\n          CASE \n            WHEN (SELECT target_exists FROM table_exists) \n            THEN target_columns.data_type \n            ELSE staging_columns.data_type \n          END AS data_type\n        FROM staging_columns \n        LEFT JOIN target_columns ON staging_columns.column_name = target_columns.column_name\n        WHERE \n          CASE \n            WHEN (SELECT target_exists FROM table_exists) \n            THEN target_columns.column_name IS NOT NULL \n            ELSE TRUE \n          END\n      ),\n      update_columns AS (\n        SELECT column_name \n        FROM final_columns \n        WHERE column_name NOT IN ("
    ++ keyColumnsStr
    ++ ") \n          AND column_name IS NOT NULL\n      ),\n      all_columns AS (\n        SELECT column_name \n        FROM final_columns \n        WHERE column_name IS NOT NULL\n      )\n      SELECT \n        (SELECT STRING_AGG(column_name || ' = source.' || column_name, ', ') FROM update_columns) AS update_set,\n        (SELECT STRING_AGG(column_name, ', ') FROM all_columns) AS insert_cols,\n        (SELECT STRING_AGG('source.' || column_name, ', ') FROM all_columns) AS insert_vals,\n        '"
    ++ joinCondition
    ++ "' AS join_condition\n        -- Target table existence check omitted for performance\n    "

/-- `SchemaManager.getStagingTableName(targetTable, stagingDataset, includeTimestamp)`;
the `Date.now()` read becomes the explicit `clk.nowMs`. -/
def getStagingTableName (targetTable : String) (stagingDataset : String)
    (includeTimestamp : Bool) (clk : Clock) : String :=
  let cleanTarget := stripChars ['`'] targetTable
  let tableParts := jsSplitChar '.' cleanTarget
  let project := jsIdx tableParts 0
  let table :=
    if tableParts.length > 2 then jsIdx tableParts 2
    else jsStrOr (tableParts.get? 1) (jsIdx tableParts 0)
  let stagingTable0 := jsIdx tableParts 1 ++ "_" ++ table
  let stagingTable :=
    if includeTimestamp then stagingTable0 ++ "_" ++ toString clk.nowMs else stagingTable0
  project ++ "." ++ stagingDataset ++ "." ++ stagingTable

/-- `SchemaManager.generateSchemaMigrationSQL(targetTable, stagingTable)`:
computes `alter_statements` (one additive `ALTER TABLE ... ADD COLUMN` per
staging column missing from the target) and executes them. -/
def generateSchemaMigrationSQL (targetTable stagingTable : String) : String :=
  let cleanTarget := stripChars ['`'] targetTable
  let tableParts := jsSplitChar '.' cleanTarget
  let project := jsIdx tableParts 0
  let dataset := jsIdx tableParts 1
  let table := jsIdx tableParts 2
  let stagingParts := jsSplitChar '.' (stripChars ['`'] stagingTable)
  let stagingDataset := jsIdx stagingParts 1
  let stagingTableName := jsIdx stagingParts 2
  "\n      -- SCHEMA MIGRATION: Find new columns and generate ALTER statements\n      SET alter_statements = (\n        SELECT ARRAY_AGG(\n          FORMAT('ALTER TABLE `%s.%s.%s` ADD COLUMN %s %s', \n                 '"
    ++ project ++ "',\n                 '" ++ dataset ++ "',\n                 '" ++ table
    ++ "',\n                 s.column_name,\n                 s.data_type)\n        )\n        FROM (\n          SELECT column_name, data_type \n          FROM \n            `"
    ++ project ++ "." ++ stagingDataset
    ++ "`.INFORMATION_SCHEMA.COLUMNS \n          WHERE table_name = '" ++ stagingTableName
    ++ "'\n        ) s\n        LEFT JOIN (\n          SELECT column_name \n          FROM \n            `"
    ++ project ++ "." ++ dataset
    ++ "`.INFORMATION_SCHEMA.COLUMNS \n          WHERE table_name = '" ++ table
    ++ "'\n        ) t\n        ON s.column_name = t.column_name\n        WHERE t.column_name IS NULL\n      );\n\n      -- SCHEMA MIGRATION: Execute the ALTER statements\n      IF alter_statements IS NOT NULL THEN\n        FOR stmt IN (SELECT s FROM UNNEST(alter_statements) AS s)\n        DO\n          EXECUTE IMMEDIATE stmt.s;\n        END FOR;\n      END IF;\n    "

end SchemaManager

/-! ## `core/merge-builder.js` -/

namespace MergeBuilder

/-- Result of `MergeBuilder._generatePartitionFilter`. -/
structure PartitionFilter where
  column : String
  targetExpression : String
  sql : String

/-- JavaScript `toUpperCase` on one character (ASCII letters only, as in the
identifiers matched by the source's regex). -/
def jsToUpperChar (c : Char) : Char :=
  if 'a' ≤ c && c ≤ 'z' then Char.ofNat (c.toNat - 32) else c

/-- The source's function-name heuristic `match === match.toUpperCase()`. -/
def jsIsUpperTok (tok : List Char) : Bool :=
  tok.all (fun c => jsToUpperChar c == c)

/-- First character of an identifier token of the regex `[a-zA-Z_]\w*`. -/
def isIdentStart (c : Char) : Bool :=
  ('a' ≤ c && c ≤ 'z') || ('A' ≤ c && c ≤ 'Z') || c == '_'

/-- Continuation character `\w` of the regex `[a-zA-Z_]\w*`. -/
def isWordChar (c : Char) : Bool :=
  isIdentStart c || ('0' ≤ c && c ≤ '9')

/-- Replacement applied to one complete identifier token: uppercase tokens are
assumed to be SQL functions and pass through; others get the `target.` alias. -/
def emitTok (tok : List Char) : List Char :=
  if jsIsUpperTok tok then tok else ("target.".data ++ tok)

/-- Scanner implementing `partitionColumn.replace(/([a-zA-Z_]\w*)/g, ...)`:
maximal identifier tokens are rewritten by `emitTok`, all other characters are
copied.  `tok` holds the current token in reverse. -/
def qualGo (tok : List Char) : List Char → List Char
  | [] => if tok.isEmpty then [] else emitTok tok.reverse
  | c :: cs =>
    if tok.isEmpty then
      if isIdentStart c then qualGo [c] cs else c :: qualGo [] cs
    else
      if isWordChar c then qualGo (c :: tok) cs
      else emitTok tok.reverse ++ (c :: qualGo [] cs)

/-- Regex-replace of identifier tokens over a whole string. -/
def qualifyExpression (s : String) : String :=
  String.mk (qualGo [] s.data)

/-- `MergeBuilder._generatePartitionFilter(stagingTable, partitionColumn)`. -/
def _generatePartitionFilter (stagingTable partitionColumn : String) : PartitionFilter :=
  let isExpression := partitionColumn.data.contains '(' || partitionColumn.data.contains ' '
  let targetPartitionExpression :=
    if isExpression then qualifyExpression partitionColumn
    else "target." ++ partitionColumn
  { column := partitionColumn
    targetExpression := targetPartitionExpression
    sql := "\n        (\n          SELECT STRING_AGG(DISTINCT CONCAT(\"'\", " ++ partitionColumn
      ++ ", \"'\"), \", \")\n          FROM `" ++ stagingTable ++ "`\n        )\n      " }

/-- `MergeBuilder._buildMergeSQL(targetTable, stagingTable, partitionFilter)`:
the five-slot (no partition) or six-slot (partition) `MERGE` template for
BigQuery `FORMAT`. -/
def _buildMergeSQL (targetTable stagingTable : String)
    (partitionFilter : Option PartitionFilter) : String :=
  match partitionFilter with
  | some pf =>
    "\n      MERGE " ++ targetTable
      ++ " target\n      USING (SELECT * FROM `%s`) source\n      ON %s AND "
      ++ pf.targetExpression
      ++ " IN (%s)\n      WHEN MATCHED THEN\n        UPDATE SET %s\n      WHEN NOT MATCHED THEN\n        INSERT (%s)\n        VALUES (%s)\n    "
  | none =>
    "\n      MERGE " ++ targetTable
      ++ " target\n      USING (SELECT * FROM `%s`) source\n      ON %s\n      WHEN MATCHED THEN\n        UPDATE SET %s\n      WHEN NOT MATCHED THEN\n        INSERT (%s)\n        VALUES (%s)\n    "

/-- Result of `MergeBuilder.generateMergeOperation`. -/
structure MergeOperation where
  stagingTableName : String
  schemaSQL : String
  mergeSQL : String
  partitionFilter : Option PartitionFilter
  hasPartition : Bool

/-- `MergeBuilder.generateMergeOperation(targetTable, stagingTable, config)`. -/
def generateMergeOperation (targetTable stagingTable : String) (config : MergeConfig) :
    MergeOperation :=
  let schemaSQL := SchemaManager.generateSchemaSQL targetTable stagingTable config.uniqueKeys
  let partitionFilter :=
    if jsStrTruthy config.partitionBy then
      some (_generatePartitionFilter stagingTable (config.partitionBy.getD ""))
    else none
  { stagingTableName := stagingTable
    schemaSQL := schemaSQL
    mergeSQL := _buildMergeSQL targetTable stagingTable partitionFilter
    partitionFilter := partitionFilter
    hasPartition := jsStrTruthy config.partitionBy }

end MergeBuilder

/-- Specification-side reading of the target-qualification sentence, for
comparison with the source-side scanner `MergeBuilder.qualGo`: split the input
into maximal identifier tokens of the shape `[a-zA-Z_]\w*`; an all-uppercase
token is never qualified, every other identifier token receives exactly one
`target.` prefix, and every non-token character passes through unchanged.  The
first argument is structural fuel; `specTokenQualify` passes the input length,
which every step preserves as sufficient. -/
def specTokenQualifyGo : Nat → List Char → List Char
  | _, [] => []
  | 0, l => l
  | fuel + 1, c :: cs =>
    if MergeBuilder.isIdentStart c then
      (if MergeBuilder.jsIsUpperTok (c :: cs.takeWhile MergeBuilder.isWordChar) then
        c :: cs.takeWhile MergeBuilder.isWordChar
       else "target.".data ++ (c :: cs.takeWhile MergeBuilder.isWordChar))
        ++ specTokenQualifyGo fuel (cs.dropWhile MergeBuilder.isWordChar)
    else c :: specTokenQualifyGo fuel cs

/-- Token-wise target-qualification of a whole character list: the
specification-side counterpart of `MergeBuilder.qualifyExpression`. -/
def specTokenQualify (l : List Char) : List Char :=
  specTokenQualifyGo l.length l

/-! ## Pattern results -/

/-- Metadata returned by `IncrementalPattern.generate`. -/
structure IncrMeta where
  stagingTable : String
  uniqueKeys : List String
  partitionColumn : Option String
  targetTable : String

/-- Metadata returned by `ViewPattern.generateMaterialized`. -/
structure ViewMeta where
  isMaterialized : Bool
  autoRefresh : Bool
  refreshInterval : Int

/-- Common shape of a pattern generator's return object; fields absent on a
given pattern's JavaScript result are `none` / `""` here. -/
structure PatternResult where
  preSQL : String
  postSQL : String
  assertionViewsSQL : String := ""
  metadata : Option IncrMeta := none
  viewMetadata : Option ViewMeta := none

/-! ## `utilities/workflow-config.js` -/

namespace WorkflowConfig

/-- `WorkflowConfig.getAssertionDataset(modelSchema)`: CLI `assertionSchema`,
then `defaultAssertionDataset`, then the model's own schema; the `dataform`
global is modelled by the explicit `env`. -/
def getAssertionDataset (env : Env) (modelSchema : String) : String :=
  if jsStrTruthy env.assertionSchema then env.assertionSchema.getD ""
  else if jsStrTruthy env.defaultAssertionDataset then env.defaultAssertionDataset.getD ""
  else modelSchema

end WorkflowConfig

/-! ## `assertions/assertion-views-builder.js` -/

namespace AssertionViewsBuilder

/-- Result of `AssertionViewsBuilder._parseTableInfo`. -/
structure TableInfo where
  dataset : String
  table : String
  tableIdForName : String
  tableRefForAssertions : String
  uniqueKeys : List String
  uniqueKeysList : String
  assertionColumns : List String
  assertionColumnsList : String

/-- `AssertionViewsBuilder._parseTableInfo(target, factoryConfig)`. -/
def _parseTableInfo (target : String) (factoryConfig : JSConfig) : TableInfo :=
  let cleanTarget := stripChars ['`', '"', '\''] target
  let tableParts := jsSplitChar '.' cleanTarget
  let dataset := if tableParts.length > 2 then jsIdx tableParts 1 else jsIdx tableParts 0
  let table :=
    if tableParts.length > 2 then jsIdx tableParts 2
    else jsStrOr (tableParts.get? 1) (jsIdx tableParts 0)
  let tableIdForName := dataset ++ "_" ++ table
  let fullTableRef :=
    if tableParts.length > 2 then target
    else "`your-project-id." ++ dataset ++ "." ++ table ++ "`"
  let tableRefForAssertions := stripChars ['`'] fullTableRef
  let uniqueKeys := jsArrOr factoryConfig.uniqueKeys ["ID"]
  let uniqueKeysList := String.intercalate ", " uniqueKeys
  let assertionColumns := jsArrOr (factoryConfig.assertions.bind (fun a => a.columns)) uniqueKeys
  let assertionColumnsList := String.intercalate ", " assertionColumns
  { dataset := dataset
    table := table
    tableIdForName := tableIdForName
    tableRefForAssertions := tableRefForAssertions
    uniqueKeys := uniqueKeys
    uniqueKeysList := uniqueKeysList
    assertionColumns := assertionColumns
    assertionColumnsList := assertionColumnsList }

/-- `AssertionViewsBuilder._buildPartitionFilter(factoryConfig, _modelMetadata,
currentModelContext)`; the unused `_modelMetadata` parameter is dropped. -/
def _buildPartitionFilter (factoryConfig : JSConfig) (ctxFullRefresh : Bool) : String :=
  if factoryConfig.type == some "incremental" && jsStrTruthy factoryConfig.partitionBy
      && !ctxFullRefresh then
    "AND " ++ factoryConfig.partitionBy.getD "" ++ " IN (partition_values)"
  else ""

/-- `AssertionViewsBuilder._generateNotNullViewQueries(check, tableInfo, partitionFilter)`. -/
def _generateNotNullViewQueries (check : DQCheck) (tableInfo : TableInfo)
    (partitionFilter : String) : List String :=
  let q := fun (col : String) =>
    "SELECT '" ++ col ++ "' as rule_name, " ++ tableInfo.assertionColumnsList
      ++ " FROM `" ++ tableInfo.tableRefForAssertions ++ "` WHERE " ++ col ++ " IS NULL "
      ++ partitionFilter
  match check.columns with
  | some cols => cols.map q
  | none => [q ((check.column).getD "undefined")]

/-- `AssertionViewsBuilder._generateUniqueKeyViewQueries(check, tableInfo, partitionFilter)`. -/
def _generateUniqueKeyViewQueries (check : DQCheck) (tableInfo : TableInfo)
    (partitionFilter : String) : List String :=
  let columnList :=
    match check.columns with
    | some cols => String.intercalate ", " cols
    | none => "undefined"
  ["SELECT 'unique_key: " ++ columnList ++ "' as rule_name, " ++ columnList
    ++ ", COUNT(*) as count FROM `" ++ tableInfo.tableRefForAssertions ++ "` WHERE 1=1 "
    ++ partitionFilter ++ " GROUP BY " ++ columnList ++ " HAVING count > 1"]

/-- `AssertionViewsBuilder._generateAcceptedValuesViewQueries(check, tableInfo, partitionFilter)`. -/
def _generateAcceptedValuesViewQueries (check : DQCheck) (tableInfo : TableInfo)
    (partitionFilter : String) : List String :=
  let valueList := String.intercalate ", " ((check.values.getD []).map (fun v => "'" ++ v ++ "'"))
  let col := (check.column).getD "undefined"
  ["SELECT 'accepted_values: " ++ col ++ "' as rule_name, " ++ tableInfo.assertionColumnsList
    ++ " FROM `" ++ tableInfo.tableRefForAssertions ++ "` WHERE " ++ col ++ " NOT IN ("
    ++ valueList ++ ") AND " ++ col ++ " IS NOT NULL " ++ partitionFilter]

/-- `AssertionViewsBuilder._generateRelationshipViewQueries(check, tableInfo, partitionFilter)`. -/
def _generateRelationshipViewQueries (check : DQCheck) (tableInfo : TableInfo)
    (partitionFilter : String) : List String :=
  let col := (check.column).getD "undefined"
  let refTable := (check.refTable).getD "undefined"
  let refColumn := (check.refColumn).getD "undefined"
  ["\n            SELECT 'relationship: " ++ col ++ " -> " ++ refTable ++ "." ++ refColumn
    ++ "' as rule_name,\n                   " ++ tableInfo.assertionColumnsList
    ++ "\n            FROM `" ++ tableInfo.tableRefForAssertions
    ++ "` source\n            WHERE source." ++ col
    ++ " IS NOT NULL\n              AND NOT EXISTS (\n                  SELECT 1 FROM `"
    ++ refTable ++ "` ref\n                  WHERE ref." ++ refColumn ++ " = source." ++ col
    ++ "\n              )\n              " ++ partitionFilter ++ "\n        "]

/-- `AssertionViewsBuilder._generateFreshnessViewQueries(check, tableInfo, partitionFilter)`. -/
def _generateFreshnessViewQueries (check : BRCheck) (tableInfo : TableInfo)
    (partitionFilter : String) : List String :=
  let hoursThreshold := jsNumOr check.maxAgeHours 24
  let dateColumn := (check.dateColumn).getD "undefined"
  ["\n            SELECT 'freshness: " ++ dateColumn ++ " > " ++ toString hoursThreshold
    ++ "h' as rule_name,\n                   " ++ tableInfo.assertionColumnsList
    ++ "\n            FROM `" ++ tableInfo.tableRefForAssertions
    ++ "`\n            WHERE " ++ dateColumn
    ++ " < DATETIME_SUB(CURRENT_DATETIME(), INTERVAL " ++ toString hoursThreshold
    ++ " HOUR)\n              " ++ partitionFilter ++ "\n        "]

/-- `AssertionViewsBuilder._generateRowCountViewQueries(check, tableInfo, partitionFilter)`:
one summary sub-query per declared bound. -/
def _generateRowCountViewQueries (check : BRCheck) (tableInfo : TableInfo)
    (partitionFilter : String) : List String :=
  (match check.minRows with
   | some m =>
     ["\n                SELECT 'row_count: min_rows_" ++ toString m
       ++ "' as rule_name,\n                       COUNT(*) as actual_count,\n                       "
       ++ toString m ++ " as min_expected\n                FROM `"
       ++ tableInfo.tableRefForAssertions ++ "`\n                WHERE 1=1 " ++ partitionFilter
       ++ "\n                HAVING COUNT(*) < " ++ toString m ++ "\n            "]
   | none => []) ++
  (match check.maxRows with
   | some m =>
     ["\n                SELECT 'row_count: max_rows_" ++ toString m
       ++ "' as rule_name,\n                       COUNT(*) as actual_count,\n                       "
       ++ toString m ++ " as max_expected\n                FROM `"
       ++ tableInfo.tableRefForAssertions ++ "`\n                WHERE 1=1 " ++ partitionFilter
       ++ "\n                HAVING COUNT(*) > " ++ toString m ++ "\n            "]
   | none => [])

/-- `AssertionViewsBuilder._generatePercentageViewQueries(check, tableInfo, partitionFilter)`. -/
def _generatePercentageViewQueries (check : BRCheck) (tableInfo : TableInfo)
    (partitionFilter : String) : List String :=
  let condition := (check.condition).getD "undefined"
  let percentage := match check.percentage with
    | some p => toString p
    | none => "undefined"
  ["\n            SELECT \"percentage: " ++ condition ++ " >= " ++ percentage
    ++ "%\" as rule_name,\n                   (SELECT COUNT(*) FROM `"
    ++ tableInfo.tableRefForAssertions ++ "` WHERE " ++ condition ++ " " ++ partitionFilter
    ++ ") as passing_count,\n                   (SELECT COUNT(*) FROM `"
    ++ tableInfo.tableRefForAssertions ++ "` WHERE 1=1 " ++ partitionFilter
    ++ ") as total_count,\n                   " ++ percentage
    ++ " as required_percentage\n            FROM `" ++ tableInfo.tableRefForAssertions
    ++ "`\n            WHERE (SELECT COUNT(*) FROM `" ++ tableInfo.tableRefForAssertions
    ++ "` WHERE " ++ condition ++ " " ++ partitionFilter
    ++ ") * 100.0\n                  / NULLIF((SELECT COUNT(*) FROM `"
    ++ tableInfo.tableRefForAssertions ++ "` WHERE 1=1 " ++ partitionFilter
    ++ "), 0) < " ++ percentage ++ "\n            LIMIT 1\n        "]

/-- Association-list accumulator for `reduce((acc, check) => ...)` grouping:
append to an existing key's bucket, else add a new key at the end (JavaScript
object key insertion order). -/
def groupInsert {α : Type} : List (String × List α) → String → α → List (String × List α)
  | [], k, c => [(k, [c])]
  | (k', cs) :: rest, k, c =>
    if k' == k then (k', cs ++ [c]) :: rest else (k', cs) :: groupInsert rest k c

/-- Grouping of checks by their `type` property (an absent type groups under the
JavaScript key `"undefined"`). -/
def groupByType {α : Type} (typeOf : α → Option String) (checks : List α) :
    List (String × List α) :=
  checks.foldl (fun acc c => groupInsert acc ((typeOf c).getD "undefined") c) []

/-- Per-type dispatch of the `switch (type)` inside `_generateDataQualityViews`. -/
def dqQueriesFor (ty : String) (check : DQCheck) (tableInfo : TableInfo)
    (partitionFilter : String) : List String :=
  if ty == "not_null" then _generateNotNullViewQueries check tableInfo partitionFilter
  else if ty == "unique_key" then _generateUniqueKeyViewQueries check tableInfo partitionFilter
  else if ty == "accepted_values" then
    _generateAcceptedValuesViewQueries check tableInfo partitionFilter
  else if ty == "relationships" then
    _generateRelationshipViewQueries check tableInfo partitionFilter
  else []

/-- Per-type dispatch of the `switch (type)` inside `_generateBusinessRulesViews`. -/
def brQueriesFor (ty : String) (check : BRCheck) (tableInfo : TableInfo)
    (partitionFilter : String) : List String :=
  if ty == "freshness" then _generateFreshnessViewQueries check tableInfo partitionFilter
  else if ty == "row_count" then _generateRowCountViewQueries check tableInfo partitionFilter
  else if ty == "percentage" then _generatePercentageViewQueries check tableInfo partitionFilter
  else []

/-- One `EXECUTE IMMEDIATE CONCAT(...)` view-creation block (shared shape of the
data-quality and business-rules emitters; `family` is `"DATA QUALITY"` /
`"BUSINESS RULES"` and `familyId` is `"data_quality"` / `"business_rules"`). -/
def viewBlock (family familyId : String) (tableInfo : TableInfo) (assertionDataset ty : String)
    (queries : List String) : String :=
  let viewName := assertionDataset ++ "." ++ tableInfo.tableIdForName ++ "_" ++ familyId
    ++ "_" ++ ty ++ "_build"
  let unionQuery := String.intercalate "\nUNION ALL\n" queries
  "\n-- 📊 " ++ family ++ ": Create " ++ ty
    ++ " assertion view with partition filtering\nEXECUTE IMMEDIATE CONCAT(\"\"\"\n    CREATE OR REPLACE VIEW `"
    ++ viewName ++ "` AS\n    \"\"\", REPLACE(\"\"\"" ++ unionQuery
    ++ "\"\"\", \"partition_values\", partition_values));\n"

/-- `AssertionViewsBuilder._generateDataQualityViews(tableInfo, assertionDataset,
dataQualityChecks, partitionFilter)`. -/
def _generateDataQualityViews (tableInfo : TableInfo) (assertionDataset : String)
    (dataQualityChecks : List DQCheck) (partitionFilter : String) : String :=
  (groupByType (fun c => c.type) dataQualityChecks).foldl
    (fun viewsSQL g =>
      let queries := g.2.foldl
        (fun acc c => acc ++ dqQueriesFor g.1 c tableInfo partitionFilter) []
      if queries.length > 0 then
        viewsSQL ++ viewBlock "DATA QUALITY" "data_quality" tableInfo assertionDataset g.1 queries
      else viewsSQL) ""

/-- `AssertionViewsBuilder._generateBusinessRulesViews(tableInfo, assertionDataset,
businessRulesChecks, partitionFilter)`. -/
def _generateBusinessRulesViews (tableInfo : TableInfo) (assertionDataset : String)
    (businessRulesChecks : List BRCheck) (partitionFilter : String) : String :=
  (groupByType (fun c => c.type) businessRulesChecks).foldl
    (fun viewsSQL g =>
      let queries := g.2.foldl
        (fun acc c => acc ++ brQueriesFor g.1 c tableInfo partitionFilter) []
      if queries.length > 0 then
        viewsSQL ++ viewBlock "BUSINESS RULES" "business_rules" tableInfo assertionDataset
          g.1 queries
      else viewsSQL) ""

/-- `AssertionViewsBuilder.generateAssertionViews(target, factoryConfig,
modelResult, currentModelContext)`.  `modelResult` is consumed only through the
unused `_modelMetadata` parameter and is dropped; of `currentModelContext` only
the `fullRefresh` flag is read. -/
def generateAssertionViews (target : String) (factoryConfig : JSConfig) (env : Env)
    (ctxFullRefresh : Bool) : String :=
  match factoryConfig.assertions with
  | none => ""
  | some asserts =>
    let tableInfo := _parseTableInfo target factoryConfig
    let assertionDataset := WorkflowConfig.getAssertionDataset env tableInfo.dataset
    let partitionFilter := _buildPartitionFilter factoryConfig ctxFullRefresh
    (match asserts.data_quality with
     | some dq => _generateDataQualityViews tableInfo assertionDataset dq partitionFilter
     | none => "") ++
    (match asserts.business_rules with
     | some br => _generateBusinessRulesViews tableInfo assertionDataset br partitionFilter
     | none => "")

end AssertionViewsBuilder

/-! ## `patterns/incremental-pattern.js` (smart first-run detection) -/

namespace IncrementalPattern

/-- Result of `IncrementalPattern._parseTableName`. -/
structure ParsedTable where
  project : String
  dataset : String
  table : String
  full : String

/-- `IncrementalPattern._parseTableName(targetTable)`. -/
def _parseTableName (targetTable : String) : ParsedTable :=
  let cleanTarget := stripChars ['`'] targetTable
  let tableParts := jsSplitChar '.' cleanTarget
  { project := jsIdx tableParts 0
    dataset := jsIdx tableParts 1
    table := jsIdx tableParts 2
    full := cleanTarget }

/-- `IncrementalPattern._buildVariableDeclarations(isFullRefresh, begin_daysBack,
end_daysBack, partitionColumn)`. -/
def _buildVariableDeclarations (isFullRefresh : Bool) (begin_daysBack end_daysBack : Int)
    (partitionColumn : Option String) : List String :=
  ["DECLARE target_exists BOOL;"] ++
  (if !isFullRefresh then
    ["DECLARE beginDate DEFAULT DATE_SUB(CURRENT_DATE(), INTERVAL " ++ toString begin_daysBack
       ++ " DAY);",
     "DECLARE limitDate DEFAULT DATE_SUB(CURRENT_DATE(), INTERVAL " ++ toString end_daysBack
       ++ " DAY);"]
   else []) ++
  ["DECLARE update_set STRING;",
   "DECLARE insert_cols STRING;",
   "DECLARE insert_vals STRING;",
   "DECLARE join_condition STRING;",
   "DECLARE merge_sql STRING;"] ++
  (if jsStrTruthy partitionColumn then ["DECLARE partition_values STRING;"] else []) ++
  ["DECLARE alter_statements ARRAY<STRING>;"]

/-- The `snapshotCreate` statement assembled at the top of `_buildPreSQL`
(a `CREATE TABLE` over the raw config's table options and metadata). -/
def snapshotCreateStatement (targetTable : String) (config : JSConfig) : String :=
  let tableOptions := TableOptions.build config.tb
  let metadata := TableBuilder._buildTableMetadata config.tb
  if metadata == "" then "CREATE TABLE " ++ targetTable ++ tableOptions
  else "CREATE TABLE " ++ targetTable ++ tableOptions ++ "\n" ++ metadata

/-- Branch-1 text of the runtime `IF NOT target_exists` in the pre-amble
(source lines `-- Branch 1: SNAPSHOT ...` through `""";`). -/
def preSnapshotBranch (snapshotCreate : String) : String :=
  "    -- Branch 1: SNAPSHOT - Create target directly\n    SET create_sql = \"\"\"\n        "
    ++ snapshotCreate ++ "\n        AS (\n    \"\"\";\n"

/-- Branch-2 text of the runtime `IF NOT target_exists` in the pre-amble
(staging-table creation with the 12-hour expiration). -/
def preIncrementalBranch (stagingTablePlaceholder : String) : String :=
  "    -- Branch 2: INCREMENTAL - Create staging table\n    SET create_sql = \"\"\"\n        CREATE OR REPLACE TABLE "
    ++ stagingTablePlaceholder
    ++ "\n        OPTIONS(\n          expiration_timestamp=TIMESTAMP_ADD(CURRENT_TIMESTAMP(), INTERVAL 12 HOUR)\n        )\n        AS (\n    \"\"\";\n"

/-- `IncrementalPattern._buildPreSQL(...)`: banner, variable declarations, the
runtime existence probe, and the two-way `IF` choosing the `create_sql` text. -/
def _buildPreSQL (variableDeclarations : List String)
    (stagingTablePlaceholder targetTable : String) (uniqueKeys : List String)
    (partitionColumn : Option String) (isFullRefresh : Bool) (config : JSConfig)
    (clk : Clock) : String :=
  let tp := _parseTableName targetTable
  let snapshotCreate := snapshotCreateStatement targetTable config
  "\n/*\n╔════════════\u2550════════════\u2550════════════\u2550════════════\u2550═══════════╗\n║              🔀 SMART INCREMENTAL PATTERN                    ║\n╠════════════\u2550════════════\u2550════════════\u2550════════════\u2550═══════════╣\n║ Mode: "
    ++ (if isFullRefresh then "FULL REFRESH" else jsPadEnd "INCREMENTAL" 12)
    ++ " │ Keys: " ++ jsPadEnd (String.intercalate ", " uniqueKeys) 20
    ++ " ║\n║ Partition: " ++ jsPadEnd (jsStrOr partitionColumn "None") 18
    ++ " │ Generated: " ++ clk.dateStr
    ++ " ║\n║ Smart Mode: Auto-switches to snapshot for first run          ║\n╚════════════\u2550════════════\u2550════════════\u2550════════════\u2550═══════════╝\n*/\n\n"
    ++ String.intercalate "\n" variableDeclarations
    ++ "\nDECLARE create_sql STRING;\n\n-- 🔍 CHECK: Determine if target table exists\nSET target_exists = (\n    SELECT COUNT(*) > 0\n    FROM `"
    ++ tp.project ++ "." ++ tp.dataset
    ++ "`.INFORMATION_SCHEMA.TABLES\n    WHERE table_name = '" ++ tp.table
    ++ "'\n);\n\n-- ========== BUILD CREATE STATEMENT DYNAMICALLY ==========\nIF NOT target_exists THEN\n"
    ++ preSnapshotBranch snapshotCreate
    ++ "ELSE\n"
    ++ preIncrementalBranch stagingTablePlaceholder
    ++ "END IF;\n\n-- Execute the dynamic CREATE statement with the SELECT query\nEXECUTE IMMEDIATE create_sql || \"\"\"\n      "

/-- Branch-1 text of the post-amble: extraction of the distinct partition values
from the newly created target (or a comment when unpartitioned), plus the
closing snapshot-mode comment block. -/
def postSnapshotBranch (partitionColumn : Option String) (targetTable : String) : String :=
  "    -- 📊 PARTITIONS: Extract partition values from newly created target table\n    "
    ++ (if jsStrTruthy partitionColumn then
         "SET partition_values = (\n           SELECT STRING_AGG(DISTINCT CONCAT(\"'\", "
           ++ partitionColumn.getD "" ++ ", \"'\"), \", \")\n           FROM " ++ targetTable
           ++ "\n         );"
        else "-- No partition column specified")
    ++ "\n\n    /*\n    ┌────────────\u2500────────────\u2500────────────\u2500────────────\u2500─────────┐\n    │ ✅ SNAPSHOT MODE COMPLETE (First Run)                      │\n    │ • Target table created directly from SELECT                 │\n    │ • No staging table or MERGE needed (50% cost savings!)     │\n    │ • Partition values extracted for assertion views           │\n    └────────────\u2500────────────\u2500────────────\u2500────────────\u2500─────────┘\n    */\n"

/-- Branch-2 text of the post-amble: idempotent target creation, schema
migration, schema-string extraction, staging partition-value extraction, and
the `FORMAT`-built merge followed by its execution. -/
def postIncrementalBranch (createTableSQL schemaMigrationSQL : String)
    (mergeOp : MergeBuilder.MergeOperation) (stagingTablePlaceholder : String)
    (partitionColumn : Option String) : String :=
  "    -- 🏗️ TARGET: Ensure target table exists with proper schema\n    "
    ++ createTableSQL
    ++ ";\n\n    -- 🔄 SCHEMA: Migrate and sync column definitions\n    "
    ++ schemaMigrationSQL
    ++ "\n\n    -- 📋 METADATA: Extract dynamic schema information\n    EXECUTE IMMEDIATE FORMAT(\"\"\" %s \"\"\", \"\"\""
    ++ mergeOp.schemaSQL
    ++ "\"\"\")\n    INTO update_set, insert_cols, insert_vals, join_condition;\n\n    -- 📊 PARTITIONS: "
    ++ (if mergeOp.hasPartition then "Extract values for targeted merge"
        else "No partition filtering needed")
    ++ "\n    "
    ++ (if mergeOp.hasPartition then
         "SET partition_values = (\n           SELECT STRING_AGG(DISTINCT CONCAT(\"'\", "
           ++ partitionColumn.getD "undefined" ++ ", \"'\"), \", \")\n           FROM "
           ++ stagingTablePlaceholder ++ "\n         );"
        else "-- Partition values: Not applicable for this model")
    ++ "\n\n    -- 🔀 MERGE: Build and execute dynamic UPSERT operation\n    SET merge_sql = FORMAT(\"\"\" "
    ++ mergeOp.mergeSQL
    ++ " \"\"\",\n      "
    ++ (if mergeOp.hasPartition then
         "'" ++ stagingTablePlaceholder
           ++ "', join_condition, partition_values, update_set, insert_cols, insert_vals"
        else
         "'" ++ stagingTablePlaceholder
           ++ "', join_condition, update_set, insert_cols, insert_vals")
    ++ "\n    );\n\n    -- ⚡ EXECUTE: Apply changes to target table\n    EXECUTE IMMEDIATE merge_sql;\n\n    /*\n    ┌────────────\u2500────────────\u2500────────────\u2500────────────\u2500─────────┐\n    │ ✅ INCREMENTAL PROCESSING COMPLETE                         │\n    │ • Staging table expires automatically in 12 hours          │\n    │ • Partition values available for assertion view filtering   │\n    └────────────\u2500────────────\u2500────────────\u2500────────────\u2500─────────┘\n    */\n"

/-- `IncrementalPattern._buildPostSQL(...)`: closes the dynamic `CREATE`, then
branches at runtime between the snapshot completion path and the staging +
migration + merge path. -/
def _buildPostSQL (createTableSQL schemaMigrationSQL : String)
    (mergeOp : MergeBuilder.MergeOperation) (stagingTablePlaceholder targetTable : String)
    (partitionColumn : Option String) (config : JSConfig) : String :=
  "\n        )  -- Close the AS ( from CREATE statement\n\"\"\";  -- Close the EXECUTE IMMEDIATE\n\n-- ========== BRANCH 1: SNAPSHOT MODE (First Run) ==========\nIF NOT target_exists THEN\n"
    ++ postSnapshotBranch partitionColumn targetTable
    ++ "\n-- ========== BRANCH 2: INCREMENTAL MODE (Subsequent Runs) ==========\nELSE\n"
    ++ postIncrementalBranch createTableSQL schemaMigrationSQL mergeOp stagingTablePlaceholder
        partitionColumn
    ++ "END IF;\n      "

/-- `IncrementalPattern.generate(targetTable, uniqueKeys, config)`; the ambient
clock and Dataform project config are explicit.  The side effects of
`AssertionsManager` (registering Dataform assertion actions) fall outside the
returned value and are not modelled. -/
def generate (targetTable : String) (uniqueKeys : List String) (config : JSConfig)
    (env : Env) (clk : Clock) : PatternResult :=
  let stagingTable := SchemaManager.getStagingTableName targetTable
    (jsStrOr config.stagingDataset "Staging") (config.timestampInStagingName.getD false) clk
  let mergeConfig : MergeConfig :=
    { uniqueKeys := uniqueKeys
      partitionBy := if jsStrTruthy config.partitionBy then config.partitionBy else none
      clusterBy := jsArrOr config.clusterBy []
      description := jsStrOr config.description ""
      labels := jsArrOr config.labels []
      partitionExpirationDays := config.partitionExpirationDays }
  let mergeOp := MergeBuilder.generateMergeOperation targetTable stagingTable mergeConfig
  let createTableSQL := TableBuilder.generateCreateTableSQL targetTable stagingTable mergeConfig.tb
  let schemaMigrationSQL := SchemaManager.generateSchemaMigrationSQL targetTable stagingTable
  let begin_daysBack := jsNumOr config.begin_daysBack 2
  let end_daysBack := jsNumOr config.end_daysBack 0
  let partitionColumn := config.partitionBy
  let isFullRefresh := jsBoolTruthy config.fullRefresh
  let stagingTablePlaceholder := "__STAGING_TABLE__"
  let variableDeclarations :=
    _buildVariableDeclarations isFullRefresh begin_daysBack end_daysBack partitionColumn
  let preSQL := _buildPreSQL variableDeclarations stagingTablePlaceholder targetTable uniqueKeys
    partitionColumn isFullRefresh config clk
  let postSQL := _buildPostSQL createTableSQL schemaMigrationSQL mergeOp stagingTablePlaceholder
    targetTable partitionColumn config
  let finalPreSQL := jsReplaceAll preSQL stagingTablePlaceholder stagingTable
  let finalPostSQL0 := jsReplaceAll postSQL stagingTablePlaceholder stagingTable
  let assertionViewsSQL := AssertionViewsBuilder.generateAssertionViews targetTable config env
    isFullRefresh
  let finalPostSQL :=
    if assertionViewsSQL == "" then finalPostSQL0
    else finalPostSQL0
      ++ "\n\n-- 🔍 ASSERTIONS: Create partition-filtered views for data quality validation\n"
      ++ assertionViewsSQL ++ "\n"
  { preSQL := finalPreSQL
    postSQL := finalPostSQL
    assertionViewsSQL := assertionViewsSQL
    metadata := some { stagingTable := stagingTable, uniqueKeys := uniqueKeys,
                       partitionColumn := partitionColumn, targetTable := targetTable } }

end IncrementalPattern

/-! ## `patterns/snapshot-pattern.js` -/

namespace SnapshotPattern

/-- `SnapshotPattern._buildPreSQL(targetTable, tableOptions, metadata)`. -/
def _buildPreSQL (targetTable tableOptions metadata : String) (clk : Clock) : String :=
  let dropStatement := "DROP TABLE IF EXISTS " ++ targetTable ++ ";"
  let createStatement :=
    if metadata == "" then "CREATE TABLE " ++ targetTable ++ tableOptions
    else "CREATE TABLE " ++ targetTable ++ tableOptions ++ "\n" ++ metadata
  "\n/*\n┌────────────\u2500────────────\u2500────────────\u2500────────────\u2500───────────┐\n│                  📸 SNAPSHOT PATTERN                    │\n│ Mode: Full Table Refresh                               │\n│ Generated: "
    ++ jsPadEnd clk.dateStr 37
    ++ " │\n└────────────\u2500────────────\u2500────────────\u2500────────────\u2500───────────┘\n*/\n\n-- 🔄 CLEANUP: Drop existing table to handle schema changes\n"
    ++ dropStatement
    ++ "\n\n-- 🏗️ CREATE: Build new table with current data\n"
    ++ createStatement
    ++ "\nAS (\n      "

/-- `SnapshotPattern._buildPostSQL()`. -/
def _buildPostSQL : String :=
  "\n)\n\n/*\n┌────────────\u2500────────────\u2500────────────\u2500────────────\u2500───────────┐\n│ ✅ SNAPSHOT CREATION COMPLETE                         │\n│ • Table fully refreshed with current data              │\n└────────────\u2500────────────\u2500────────────\u2500────────────\u2500───────────┘\n*/\n      "

/-- `SnapshotPattern.generate(targetTable, config)`. -/
def generate (targetTable : String) (config : JSConfig) (clk : Clock) : PatternResult :=
  let tableOptions := TableOptions.build config.tb
  let metadata := TableBuilder._buildTableMetadata config.tb
  { preSQL := _buildPreSQL targetTable tableOptions metadata clk
    postSQL := _buildPostSQL }

end SnapshotPattern

/-! ## `patterns/view-pattern.js` -/

namespace ViewPattern

/-- `ViewPattern._buildPreSQL(viewName, description, isMaterialized)`; the
banner's mangled box-drawing bytes are reproduced as found in the source. -/
def _buildPreSQL (viewName description : String) (isMaterialized : Bool) (clk : Clock) :
    String :=
  let viewType := if isMaterialized then "MATERIALIZED VIEW" else "VIEW"
  let icon := if isMaterialized then "ðŸ“Š" else "ðŸ‘ï¸"
  "\n/*\nâ”Œâ”€â”€â”€â”€â”€â”€â”€â”€â”€â”€â”€â”€â”€â”€â”€â”€â”€â”€â”€â”€â”€â”€â”€â”€â”€â”€â”€â”€â”€â”€â”€â”€â”€â”€â”€â”€â”€â”€â”€â”€â”€â”€â”€â”€â”€â”€â”€â”€â”€â”€â”€â”€â”€â”€â”€â”€â”€â”€â”€â”€â”€â”€â”€â”\nâ”‚                   "
    ++ icon ++ " " ++ viewType
    ++ " PATTERN                   â”‚\nâ”‚ Generated: "
    ++ jsPadEnd clk.dateStr 37
    ++ " â”‚\nâ””â”€â”€â”€â”€â”€â”€â”€â”€â”€â”€â”€â”€â”€â”€â”€â”€â”€â”€â”€â”€â”€â”€â”€â”€â”€â”€â”€â”€â”€â”€â”€â”€â”€â”€â”€â”€â”€â”€â”€â”€â”€â”€â”€â”€â”€â”€â”€â”€â”€â”€â”€â”€â”€â”€â”€â”€â”€â”€â”€â”€â”€â”€â”€â”˜\n*/\n\nCREATE OR REPLACE "
    ++ viewType ++ " " ++ viewName ++ description
    ++ "\nAS (\n      "

/-- `ViewPattern._buildPostSQL(isMaterialized)`. -/
def _buildPostSQL (isMaterialized : Bool) : String :=
  let viewType := if isMaterialized then "MATERIALIZED VIEW" else "VIEW"
  "\n);\n\n/*\nâ”Œâ”€â”€â”€â”€â”€â”€â”€â”€â”€â”€â”€â”€â”€â”€â”€â”€â”€â”€â”€â”€â”€â”€â”€â”€â”€â”€â”€â”€â”€â”€â”€â”€â”€â”€â”€â”€â”€â”€â”€â”€â”€â”€â”€â”€â”€â”€â”€â”€â”€â”€â”€â”€â”€â”€â”€â”€â”€â”€â”€â”€â”€â”€â”€â”\nâ”‚ âœ… "
    ++ viewType
    ++ " CREATION COMPLETE                    â”‚\nâ””â”€â”€â”€â”€â”€â”€â”€â”€â”€â”€â”€â”€â”€â”€â”€â”€â”€â”€â”€â”€â”€â”€â”€â”€â”€â”€â”€â”€â”€â”€â”€â”€â”€â”€â”€â”€â”€â”€â”€â”€â”€â”€â”€â”€â”€â”€â”€â”€â”€â”€â”€â”€â”€â”€â”€â”€â”€â”€â”€â”€â”€â”€â”€â”˜\n*/\n      "

/-- `ViewPattern._buildMaterializedViewOptions(config)`. -/
def _buildMaterializedViewOptions (config : JSConfig) : String :=
  let options :=
    (if jsStrTruthy config.description then
      ["description=\"" ++ config.description.getD "" ++ "\""] else []) ++
    (if jsBoolTruthy config.autoRefresh then
      ["enable_refresh=true",
       "refresh_interval_minutes=" ++ toString (jsNumOr config.refreshInterval 60)] else [])
  if options.length > 0 then "\nOPTIONS(\n  " ++ String.intercalate ",\n  " options ++ "\n)"
  else ""

/-- `ViewPattern.generateMaterialized(viewName, config)`. -/
def generateMaterialized (viewName : String) (config : JSConfig) (clk : Clock) : PatternResult :=
  let options := _buildMaterializedViewOptions config
  { preSQL := _buildPreSQL viewName options true clk
    postSQL := _buildPostSQL true
    viewMetadata := some { isMaterialized := true,
                           autoRefresh := jsBoolTruthy config.autoRefresh,
                           refreshInterval := jsNumOr config.refreshInterval 60 } }

/-- `ViewPattern._generateRegularView(viewName, config)`. -/
def _generateRegularView (viewName : String) (config : JSConfig) (clk : Clock) : PatternResult :=
  let description :=
    if jsStrTruthy config.description then
      "\nOPTIONS(description=\"" ++ config.description.getD "" ++ "\")"
    else ""
  { preSQL := _buildPreSQL viewName description false clk
    postSQL := _buildPostSQL false }

/-- `ViewPattern.generate(viewName, config)`. -/
def generate (viewName : String) (config : JSConfig) (clk : Clock) : PatternResult :=
  if jsBoolTruthy config.materialized then generateMaterialized viewName config clk
  else _generateRegularView viewName config clk

end ViewPattern

/-! ## `utilities/config-validator.js` -/

/-- Result object of `ConfigValidator.validateFactoryConfig`. -/
structure ValidationResult where
  isValid : Bool
  errors : List String
  warnings : List String

namespace ConfigValidator

/-- `ConfigValidator._validateRequiredProperties(config, errors)`; returns the
errors it pushes.  The early `return` after a missing `type` is mirrored. -/
def _validateRequiredProperties (config : JSConfig) : List String :=
  if !jsStrTruthy config.type then
    ["Missing required property \"type\". Must be one of: \"incremental\", \"table\", \"view\""]
  else
    (if !(["incremental", "table", "view"].contains (config.type.getD "")) then
      ["Invalid \"type\" value: \"" ++ config.type.getD ""
        ++ "\". Must be one of: incremental, table, view"]
     else []) ++
    (if config.type == some "incremental"
        && (match config.uniqueKeys with | none => true | some l => l.length == 0) then
      ["Incremental models require \"uniqueKeys\" property with at least one key"]
     else [])

/-- `ConfigValidator._validateIncrementalProperties`: (errors, warnings).
The `uniqueKeys`/`stagingDataset`/`fullRefresh`/`timestampInStagingName`
type-of checks can only fire on non-well-typed values and are unreachable in
the embedding. -/
def _validateIncrementalProperties (config : JSConfig) : List String × List String :=
  ((match config.begin_daysBack with
    | some n => if n < 0 then ["begin_daysBack must be a non-negative integer"] else []
    | none => []) ++
   (match config.end_daysBack with
    | some n => if n < 0 then ["end_daysBack must be a non-negative integer"] else []
    | none => []),
   (match config.begin_daysBack with
    | some n => if n > 365 then ["begin_daysBack > 365 days may impact performance and costs"]
                else []
    | none => []))

/-- `ConfigValidator._validateTableProperties`: (errors, warnings). -/
def _validateTableProperties (config : JSConfig) : List String × List String :=
  ([],
   (if jsArrTruthy config.uniqueKeys then
     ["uniqueKeys property is ignored for table type (full refresh)"] else []) ++
   (if jsNumTruthy config.begin_daysBack || jsNumTruthy config.end_daysBack then
     ["begin_daysBack/end_daysBack properties are ignored for table type (full refresh)"]
    else []))

/-- `ConfigValidator._validateViewProperties`: (errors, warnings). -/
def _validateViewProperties (config : JSConfig) : List String × List String :=
  let riErrors :=
    if jsNumTruthy config.refreshInterval && config.refreshInterval.getD 0 < 1 then
      ["refreshInterval must be a positive integer (minutes)"]
    else []
  let riWarnings :=
    if jsNumTruthy config.refreshInterval then
      (if !jsBoolTruthy config.materialized || !jsBoolTruthy config.autoRefresh then
        ["refreshInterval only applies when materialized: true and autoRefresh: true"] else []) ++
      (if config.refreshInterval.getD 0 < 15 then
        ["refreshInterval < 15 minutes may impact BigQuery quotas"] else [])
    else []
  (riErrors,
   (if jsArrTruthy config.uniqueKeys then ["uniqueKeys property is ignored for view type"]
    else []) ++
   (if jsNumTruthy config.begin_daysBack || jsNumTruthy config.end_daysBack then
     ["begin_daysBack/end_daysBack properties are ignored for view type"] else []) ++
   (if jsBoolTruthy config.autoRefresh && !jsBoolTruthy config.materialized then
     ["autoRefresh only applies to materialized views (set materialized: true)"] else []) ++
   riWarnings)

/-- `ConfigValidator._validateCommonProperties`: (errors, warnings).  The
`partitionBy`/`description` type-of checks are unreachable in the embedding. -/
def _validateCommonProperties (config : JSConfig) : List String × List String :=
  ((match config.clusterBy with
    | some l => if l.length > 4 then ["clusterBy can have maximum 4 columns"] else []
    | none => []),
   [])

/-- `ConfigValidator._validateDataQualityAssertion(assertion, context, ...)`. -/
def _validateDataQualityAssertion (assertion : DQCheck) (context : String) : List String :=
  if !jsStrTruthy assertion.type then
    [context ++ ": Missing required property \"type\""]
  else if !(["not_null", "unique_key", "accepted_values", "relationships"].contains
      (assertion.type.getD "")) then
    [context ++ ": Invalid type \"" ++ assertion.type.getD ""
      ++ "\". Valid types: not_null, unique_key, accepted_values, relationships"]
  else if assertion.type == some "not_null" then
    if !jsStrTruthy assertion.column && !jsArrTruthy assertion.columns then
      [context ++ ": not_null assertion requires \"column\" or \"columns\" property"]
    else []
  else if assertion.type == some "unique_key" then
    if !jsArrTruthy assertion.columns then
      [context ++ ": unique_key assertion requires \"columns\" property"]
    else []
  else if assertion.type == some "accepted_values" then
    (if !jsStrTruthy assertion.column then
      [context ++ ": accepted_values assertion requires \"column\" property"] else []) ++
    (if !jsArrTruthy assertion.values then
      [context ++ ": accepted_values assertion requires \"values\" array"] else [])
  else if assertion.type == some "relationships" then
    if !jsStrTruthy assertion.column || !jsStrTruthy assertion.refTable
        || !jsStrTruthy assertion.refColumn then
      [context ++ ": relationships assertion requires \"column\", \"refTable\", and \"refColumn\" properties"]
    else []
  else []

/-- `ConfigValidator._validateBusinessRuleAssertion(assertion, context, ...)`. -/
def _validateBusinessRuleAssertion (assertion : BRCheck) (context : String) : List String :=
  if !jsStrTruthy assertion.type then
    [context ++ ": Missing required property \"type\""]
  else if !(["freshness", "row_count", "percentage"].contains (assertion.type.getD "")) then
    [context ++ ": Invalid type \"" ++ assertion.type.getD ""
      ++ "\". Valid types: freshness, row_count, percentage"]
  else if assertion.type == some "freshness" then
    (if !jsStrTruthy assertion.dateColumn then
      [context ++ ": freshness assertion requires \"dateColumn\" property"] else []) ++
    (if jsNumTruthy assertion.maxAgeHours && assertion.maxAgeHours.getD 0 < 1 then
      [context ++ ": maxAgeHours must be a positive integer"] else [])
  else if assertion.type == some "row_count" then
    (match assertion.minRows with
     | some m => if m < 0 then [context ++ ": minRows must be a non-negative integer"] else []
     | none => []) ++
    (match assertion.maxRows with
     | some m => if m < 0 then [context ++ ": maxRows must be a non-negative integer"] else []
     | none => []) ++
    (if assertion.minRows == none && assertion.maxRows == none then
      [context ++ ": row_count assertion requires at least \"minRows\" or \"maxRows\""]
     else [])
  else if assertion.type == some "percentage" then
    (if !jsStrTruthy assertion.condition then
      [context ++ ": percentage assertion requires \"condition\" property"] else []) ++
    (match assertion.percentage with
     | none => [context ++ ": percentage must be a number between 0 and 100"]
     | some p => if p < 0 || p > 100 then
         [context ++ ": percentage must be a number between 0 and 100"] else [])
  else []

/-- `ConfigValidator._validateAssertions(assertions, errors, warnings)`:
(errors, warnings).  The array-type checks on `columns` / `data_quality` /
`business_rules` are unreachable in the embedding. -/
def _validateAssertions (asserts : AssertionsBlock) : List String × List String :=
  (((asserts.data_quality.getD []).enum.map
      (fun ic => _validateDataQualityAssertion ic.2 ("data_quality[" ++ toString ic.1 ++ "]"))).flatten ++
   ((asserts.business_rules.getD []).enum.map
      (fun ic => _validateBusinessRuleAssertion ic.2 ("business_rules[" ++ toString ic.1 ++ "]"))).flatten,
   [])

/-- `ConfigValidator._checkUnknownProperties(config, warnings)`: the iteration
over `Object.keys` produces a warning exactly for the properties outside the
known set, modelled by `extraProps`. -/
def _checkUnknownProperties (config : JSConfig) : List String :=
  config.extraProps.map (fun p => "Unknown property \"" ++ p ++ "\" will be ignored")

/-- `ConfigValidator.validateFactoryConfig(factoryConfig, target)`.  The guard
for a non-object `factoryConfig` is unreachable in the embedding. -/
def validateFactoryConfig (factoryConfig : JSConfig) (target : String) : ValidationResult :=
  let reqErrors := _validateRequiredProperties factoryConfig
  let ts := match factoryConfig.type with
    | some "incremental" => _validateIncrementalProperties factoryConfig
    | some "table" => _validateTableProperties factoryConfig
    | some "view" => _validateViewProperties factoryConfig
    | _ => ([], [])
  let common := _validateCommonProperties factoryConfig
  let asserts := match factoryConfig.assertions with
    | some a => _validateAssertions a
    | none => ([], [])
  let unknownWarnings := _checkUnknownProperties factoryConfig
  let errors := reqErrors ++ ts.1 ++ common.1 ++ asserts.1
  let warnings := ts.2 ++ common.2 ++ asserts.2 ++ unknownWarnings
  { isValid := errors.length == 0
    errors := errors
    warnings := warnings }

/-- `ConfigValidator.formatValidationMessage(validation, target)`; `null`
becomes `none`. -/
def formatValidationMessage (validation : ValidationResult) (target : String) : Option String :=
  if validation.isValid && validation.warnings.length == 0 then none
  else some
    ("Configuration validation for " ++ target ++ ":\n"
      ++ (if validation.errors.length > 0 then
           "\n❌ ERRORS:\n" ++ String.join (validation.errors.map (fun e => "  - " ++ e ++ "\n"))
          else "")
      ++ (if validation.warnings.length > 0 then
           "\n⚠️  WARNINGS:\n"
             ++ String.join (validation.warnings.map (fun w => "  - " ++ w ++ "\n"))
          else ""))

end ConfigValidator

/-! ## `advanced_factory.js` -/

namespace AdvancedFactory

/-- Return object of `create` (model fields re-exposed at the top level). -/
structure CreateResult where
  model : PatternResult
  fullRefresh : Bool
  preSQL : String
  postSQL : String
  metadata : Option IncrMeta

/-- `advanced_factory.create(target, factoryConfig, configDescription)`.
Throwing on invalid configuration becomes `Except.error`; the global
model-context writes, the `console.warn` of warnings, and the Dataform-side
assertion registration are side effects outside the returned value and are not
modelled; the returned `dateFilter` closure is likewise out of the claims'
scope. -/
def create (target : String) (factoryConfig : JSConfig) (configDescription : String)
    (env : Env) (clk : Clock) : Except String CreateResult :=
  let validation := ConfigValidator.validateFactoryConfig factoryConfig target
  if !validation.isValid then
    Except.error ("Invalid factoryConfig:\n"
      ++ (ConfigValidator.formatValidationMessage validation target).getD "null")
  else
    let mergedConfig : JSConfig :=
      { factoryConfig with
          description := some (jsStrOr factoryConfig.description configDescription) }
    let m : PatternResult × Bool :=
      match factoryConfig.type with
      | some "incremental" =>
        if jsBoolTruthy factoryConfig.fullRefresh then
          (SnapshotPattern.generate target mergedConfig clk, true)
        else
          (IncrementalPattern.generate target (jsArrOr factoryConfig.uniqueKeys ["ID"])
            mergedConfig env clk, false)
      | some "table" =>
        (SnapshotPattern.generate target mergedConfig clk, jsBoolTruthy factoryConfig.fullRefresh)
      | some "view" =>
        (ViewPattern.generate target mergedConfig clk, jsBoolTruthy factoryConfig.fullRefresh)
      | _ => ({ preSQL := "", postSQL := "" }, jsBoolTruthy factoryConfig.fullRefresh)
    Except.ok
      { model := m.1
        fullRefresh := m.2
        preSQL := m.1.preSQL
        postSQL := m.1.postSQL
        metadata := m.1.metadata }

end AdvancedFactory

/-! ## Relational semantics of the reconciliation queries

`SchemaManager.generateSchemaSQL` and `SchemaManager.generateSchemaMigrationSQL`
emit fixed-shape SQL over `INFORMATION_SCHEMA.COLUMNS`.  The definitions below
interpret those queries clause by clause over explicit column catalogs (ordered
`(column_name, data_type)` rows, names unique as INFORMATION_SCHEMA guarantees):
`final_columns` is the staging catalog LEFT-JOINed to the target catalog on
`column_name`, filtered by `target.column_name IS NOT NULL` when the target
exists; `update_columns` filters out the unique keys; the migration query
anti-joins staging against target and wraps each surviving row in one
`ALTER TABLE ... ADD COLUMN` statement via `FORMAT`. -/

/-- A column catalog: ordered `(column_name, data_type)` rows. -/
structure Catalog where
  cols : List (String × String)

/-- The column names of a catalog, in `ordinal_position` order. -/
def Catalog.names (c : Catalog) : List String :=
  c.cols.map Prod.fst

/-- The `final_columns` CTE of the schema query, interpreted over catalogs. -/
def finalColumns (targetExists : Bool) (staging target : Catalog) : List String :=
  if targetExists then staging.names.filter (fun n => target.names.contains n)
  else staging.names

/-- The `update_columns` CTE: `final_columns` minus the unique keys. -/
def updateColumns (targetExists : Bool) (staging target : Catalog)
    (uniqueKeys : List String) : List String :=
  (finalColumns targetExists staging target).filter (fun n => !uniqueKeys.contains n)

/-- The rows surviving the migration query's anti-join: staging columns whose
name is absent from the target catalog. -/
def newColumns (staging target : Catalog) : List (String × String) :=
  staging.cols.filter (fun c => !target.names.contains c.1)

/-- The `alter_statements` array built by the migration query: one additive
`ALTER TABLE ... ADD COLUMN` per new column. -/
def migrationAlterStatements (project dataset table : String) (staging target : Catalog) :
    List String :=
  (newColumns staging target).map
    (fun c => "ALTER TABLE `" ++ project ++ "." ++ dataset ++ "." ++ table
      ++ "` ADD COLUMN " ++ c.1 ++ " " ++ c.2)

/-! ## Decomposition constants for the merge templates

Both `_buildMergeSQL` templates share a common head (through the join-condition
line's indentation) and a common tail (the `WHEN MATCHED` / `WHEN NOT MATCHED`
clauses); the six-slot form differs from the five-slot form exactly by the
partition restriction appended to the `ON` line. -/

/-- Text of the merge template before the `ON` clause (five and six slot alike). -/
def mergeTemplateHead (targetTable : String) : String :=
  "\n      MERGE " ++ targetTable
    ++ " target\n      USING (SELECT * FROM `%s`) source\n      "

/-- Text of the merge template after the `ON` line (five and six slot alike). -/
def mergeTemplateTail : String :=
  "\n      WHEN MATCHED THEN\n        UPDATE SET %s\n      WHEN NOT MATCHED THEN\n        INSERT (%s)\n        VALUES (%s)\n    "

/-- Number of positions at which `pat` begins inside a character list. -/
def countOccList (pat : List Char) : List Char → Nat
  | [] => 0
  | c :: rest => (if pat.isPrefixOf (c :: rest) then 1 else 0) + countOccList pat rest

/-- Number of positions at which `pat` begins inside a string. -/
def countOccStr (pat s : String) : Nat := countOccList pat.data s.data

/-! ## Generic string/list lemmas used by the claim proofs -/

theorem strAppendAssoc (a b c : String) : a ++ b ++ c = a ++ (b ++ c) := by
  cases a with | mk da =>
  cases b with | mk db =>
  cases c with | mk dc =>
  show String.mk (da ++ db ++ dc) = String.mk (da ++ (db ++ dc))
  rw [List.append_assoc]

theorem strExt {a b : String} (h : a.data = b.data) : a = b := by
  cases a; cases b; exact congrArg String.mk h

theorem prefixAppendCases {α : Type} {p y x : List α} (h : p <+: y ++ x) :
    p <+: y ∨ y <+: p := by
  induction y generalizing p with
  | nil => right; exact List.nil_prefix
  | cons a ys ih =>
    cases p with
    | nil => left; exact List.nil_prefix
    | cons b ps =>
      rw [List.cons_append] at h
      obtain ⟨hab, h'⟩ := List.cons_prefix_cons.mp h
      rcases ih h' with h1 | h1
      · left; exact List.cons_prefix_cons.mpr ⟨hab, h1⟩
      · right; exact List.cons_prefix_cons.mpr ⟨hab.symm, h1⟩

theorem suffixAppendCases {α : Type} {s x y : List α} (h : s <:+ x ++ y) :
    s <:+ y ∨ y <:+ s := by
  have h' : s.reverse <+: y.reverse ++ x.reverse := by
    rw [← List.reverse_append]
    exact List.reverse_prefix.mpr h
  rcases prefixAppendCases h' with h1 | h1
  · left; exact List.reverse_prefix.mp h1
  · right; exact List.reverse_prefix.mp h1

theorem infixAppendSplit {pat a b : List Char} (h : pat <:+: a ++ b) :
    pat <:+: a ∨ pat <:+: b ∨
      ∃ k, 0 < k ∧ k < pat.length ∧ pat.take k <:+ a ∧ pat.drop k <+: b := by
  obtain ⟨s, t, hst⟩ := h
  have hst' : s ++ (pat ++ t) = a ++ b := by rw [← List.append_assoc]; exact hst
  rcases List.append_eq_append_iff.mp hst' with ⟨a', ha, hb⟩ | ⟨c', _, hb⟩
  · rcases List.append_eq_append_iff.mp hb with ⟨x, hx1, _⟩ | ⟨y, hy1, hy2⟩
    · left
      exact ⟨s, x, by rw [ha, hx1, List.append_assoc]⟩
    · by_cases hk0 : a' = []
      · right; left
        subst hk0
        simp only [List.nil_append] at hy1
        exact ⟨[], t, by rw [List.nil_append, hy1, hy2]⟩
      · by_cases hkfull : y = []
        · left
          refine ⟨s, [], ?_⟩
          rw [List.append_nil, ha, hy1, hkfull, List.append_nil]
        · right; right
          refine ⟨a'.length, List.length_pos.mpr hk0, ?_, ?_, ?_⟩
          · rw [hy1, List.length_append]
            have := List.length_pos.mpr hkfull
            omega
          · rw [hy1, List.take_left, ha]
            exact ⟨s, rfl⟩
          · rw [hy1, List.drop_left, hy2]
            exact ⟨t, rfl⟩
  · right; left
    exact ⟨c', t, by rw [← List.append_assoc] at hb; exact hb.symm⟩

theorem noOccAppend {pat a b : List Char} (h1 : ¬ pat <:+: a) (h2 : ¬ pat <:+: b)
    (h3 : ∀ k, 0 < k → k < pat.length → ¬ (pat.take k <:+ a ∧ pat.drop k <+: b)) :
    ¬ pat <:+: a ++ b := fun h => by
  rcases infixAppendSplit h with hh | hh | ⟨k, hk1, hk2, hk3, hk4⟩
  exacts [h1 hh, h2 hh, h3 k hk1 hk2 ⟨hk3, hk4⟩]

theorem noOccLitAppend {pat lit T : List Char} (h1 : ¬ pat <:+: lit)
    (h3 : ∀ k, k < pat.length → 0 < k → ¬ (pat.take k <:+ lit)) (h2 : ¬ pat <:+: T) :
    ¬ pat <:+: lit ++ T :=
  noOccAppend h1 h2 (fun k hk1 hk2 hc => h3 k hk2 hk1 hc.1)

theorem noOccVarAppend {pat v : List Char} {c : Char} {rest : List Char}
    (hc : c ∉ pat) (hv : ¬ pat <:+: v) (hT : ¬ pat <:+: c :: rest) :
    ¬ pat <:+: v ++ (c :: rest) := by
  refine noOccAppend hv hT (fun k hk1 hk2 hcross => ?_)
  have hd := hcross.2
  have hne : pat.drop k ≠ [] := by
    intro he
    have := List.length_drop k pat
    rw [he] at this
    simp at this
    omega
  obtain ⟨d, ds, hds⟩ := List.exists_cons_of_ne_nil hne
  rw [hds] at hd
  have hdc : d = c := (List.cons_prefix_cons.mp hd).1
  apply hc
  rw [← hdc]
  exact List.drop_subset k pat (hds ▸ List.mem_cons_self d ds)

theorem noOccOfMissingChar {pat v : List Char} {c : Char} (hc : c ∈ pat) (hv : c ∉ v) :
    ¬ pat <:+: v := fun h => hv (h.subset hc)

/-- Number of positions at which the BigQuery `FORMAT` placeholder `%s` begins. -/
def countPS : List Char → Nat
  | [] => 0
  | c :: cs => (if c = '%' ∧ cs.head? = some 's' then 1 else 0) + countPS cs

/-- Placeholder count of a statement string. -/
def slotCount (s : String) : Nat := countPS s.data

theorem countPS_append {a b : List Char} (h : a.getLast? = some '%' → b.head? ≠ some 's') :
    countPS (a ++ b) = countPS a + countPS b := by
  induction a with
  | nil => simp [countPS]
  | cons c a' ih =>
    cases a' with
    | nil =>
      have hc : ¬ (c = '%' ∧ b.head? = some 's') := fun hh => h (by simp [hh.1]) hh.2
      simp [countPS, hc]
    | cons d a'' =>
      have hlast : (c :: d :: a'').getLast? = (d :: a'').getLast? := List.getLast?_cons_cons
      have ih' := ih (fun hg => h (by rw [hlast]; exact hg))
      show countPS (c :: ((d :: a'') ++ b)) = countPS (c :: d :: a'') + countPS b
      have l1 : countPS (c :: ((d :: a'') ++ b)) =
          (if c = '%' ∧ ((d :: a'') ++ b).head? = some 's' then 1 else 0)
            + countPS ((d :: a'') ++ b) := rfl
      have l2 : countPS (c :: d :: a'') =
          (if c = '%' ∧ (d :: a'').head? = some 's' then 1 else 0) + countPS (d :: a'') := rfl
      rw [l1, l2, ih']
      have hh : ((d :: a'') ++ b).head? = (d :: a'').head? := by simp
      rw [hh]
      omega

theorem countPS_zero {a : List Char} (h : '%' ∉ a) : countPS a = 0 := by
  induction a with
  | nil => simp [countPS]
  | cons c a' ih =>
    have hc : ¬ (c = '%' ∧ a'.head? = some 's') :=
      fun hh => h (hh.1 ▸ List.mem_cons_self c a')
    simp [countPS, hc, ih (fun hm => h (List.mem_cons_of_mem _ hm))]

theorem countPS_append_left {a b : List Char} (h : '%' ∉ a) :
    countPS (a ++ b) = countPS b := by
  have hside : a.getLast? = some '%' → b.head? ≠ some 's' := fun hg => by
    obtain ⟨hne, hx⟩ := List.mem_getLast?_eq_getLast (Option.mem_def.mpr hg)
    exact ((h (hx ▸ List.getLast_mem hne)).elim)
  rw [countPS_append hside, countPS_zero h, Nat.zero_add]

theorem countPS_append_right {a b : List Char} (h : a.getLast? ≠ some '%') :
    countPS (a ++ b) = countPS a + countPS b :=
  countPS_append (fun hg => absurd hg h)

theorem emitTok_chars {c : Char} {l : List Char} (h : c ∈ MergeBuilder.emitTok l) :
    c ∈ l ∨ c ∈ "target.".data := by
  unfold MergeBuilder.emitTok at h
  split at h
  · exact Or.inl h
  · rcases List.mem_append.mp h with h1 | h1
    · exact Or.inr h1
    · exact Or.inl h1

theorem qualGo_chars {c : Char} : ∀ (s tok : List Char), c ∈ MergeBuilder.qualGo tok s →
    c ∈ tok ∨ c ∈ s ∨ c ∈ "target.".data := by
  intro s
  induction s with
  | nil =>
    intro tok h
    simp only [MergeBuilder.qualGo] at h
    split at h
    · simp at h
    · rcases emitTok_chars h with h1 | h1
      · exact Or.inl (List.mem_reverse.mp h1)
      · exact Or.inr (Or.inr h1)
  | cons d cs ih =>
    intro tok h
    simp only [MergeBuilder.qualGo] at h
    split at h
    · split at h
      · rcases ih _ h with h1 | h1 | h1
        · have h2 : c = d := List.mem_singleton.mp h1
          exact Or.inr (Or.inl (h2 ▸ List.mem_cons_self d cs))
        · exact Or.inr (Or.inl (List.mem_cons_of_mem d h1))
        · exact Or.inr (Or.inr h1)
      · rcases List.mem_cons.mp h with h1 | h1
        · exact Or.inr (Or.inl (h1 ▸ List.mem_cons_self d cs))
        · rcases ih _ h1 with h2 | h2 | h2
          · simp at h2
          · exact Or.inr (Or.inl (List.mem_cons_of_mem d h2))
          · exact Or.inr (Or.inr h2)
    · split at h
      · rcases ih _ h with h1 | h1 | h1
        · rcases List.mem_cons.mp h1 with h2 | h2
          · exact Or.inr (Or.inl (h2 ▸ List.mem_cons_self d cs))
          · exact Or.inl h2
        · exact Or.inr (Or.inl (List.mem_cons_of_mem d h1))
        · exact Or.inr (Or.inr h1)
      · rcases List.mem_append.mp h with h1 | h1
        · rcases emitTok_chars h1 with h2 | h2
          · exact Or.inl (List.mem_reverse.mp h2)
          · exact Or.inr (Or.inr h2)
        · rcases List.mem_cons.mp h1 with h2 | h2
          · exact Or.inr (Or.inl (h2 ▸ List.mem_cons_self d cs))
          · rcases ih _ h2 with h3 | h3 | h3
            · simp at h3
            · exact Or.inr (Or.inl (List.mem_cons_of_mem d h3))
            · exact Or.inr (Or.inr h3)

theorem pctNotInTargetExpr {s p : String} (hp : '%' ∉ p.data) :
    '%' ∉ (MergeBuilder._generatePartitionFilter s p).targetExpression.data := by
  intro h
  unfold MergeBuilder._generatePartitionFilter at h
  simp only at h
  split at h
  · rcases qualGo_chars p.data [] h with h1 | h1 | h1
    · simp at h1
    · exact hp h1
    · revert h1; decide
  · rw [String.data_append] at h
    rcases List.mem_append.mp h with h1 | h1
    · revert h1; decide
    · exact hp h1

/-- C2: for every incremental configuration without a partition expression the
Upsert Synthesizer emits the five-slot MERGE template, and for every
configuration with a partition expression it emits the six-slot template whose
extra slot is an `AND <target-qualified partition expr> IN (<values>)`
restriction placed immediately after the join-condition slot.  The embedded
target identifier and partition expression are assumed free of `%` (a literal
`%s` inside them would add spurious FORMAT slots). -/
theorem claim_C2 (t s : String) (cfg : MergeConfig) (hp : '%' ∉ t.data) :
    (jsStrTruthy cfg.partitionBy = false →
      (MergeBuilder.generateMergeOperation t s cfg).mergeSQL
          = mergeTemplateHead t ++ "ON %s" ++ mergeTemplateTail ∧
      slotCount (MergeBuilder.generateMergeOperation t s cfg).mergeSQL = 5) ∧
    (∀ p : String, cfg.partitionBy = some p → p ≠ "" → '%' ∉ p.data →
      (MergeBuilder.generateMergeOperation t s cfg).mergeSQL
          = mergeTemplateHead t ++ "ON %s AND "
              ++ (MergeBuilder._generatePartitionFilter s p).targetExpression
              ++ " IN (%s)" ++ mergeTemplateTail ∧
      slotCount (MergeBuilder.generateMergeOperation t s cfg).mergeSQL = 6) := by
  constructor
  · intro hfalse
    have hsql : (MergeBuilder.generateMergeOperation t s cfg).mergeSQL
        = MergeBuilder._buildMergeSQL t s none := by
      simp [MergeBuilder.generateMergeOperation, hfalse]
    constructor
    · rw [hsql]
      apply strExt
      simp only [MergeBuilder._buildMergeSQL, mergeTemplateHead, mergeTemplateTail,
        String.data_append, List.append_assoc]
      rw [List.append_right_inj, List.append_right_inj]
      decide
    · rw [hsql, slotCount]
      have hdata : (MergeBuilder._buildMergeSQL t s none).data
          = ("\n      MERGE ").data ++ (t.data
            ++ (" target\n      USING (SELECT * FROM `%s`) source\n      ON %s\n      WHEN MATCHED THEN\n        UPDATE SET %s\n      WHEN NOT MATCHED THEN\n        INSERT (%s)\n        VALUES (%s)\n    ").data) := by
        simp [MergeBuilder._buildMergeSQL, String.data_append, List.append_assoc]
      rw [hdata, countPS_append_left (by decide), countPS_append_left hp]
      decide
  · intro p hsome hpne hpp
    have htruthy : jsStrTruthy cfg.partitionBy = true := by
      rw [hsome]; simp [jsStrTruthy, hpne]
    have hgd : cfg.partitionBy.getD "" = p := by rw [hsome]; rfl
    have hsql : (MergeBuilder.generateMergeOperation t s cfg).mergeSQL
        = MergeBuilder._buildMergeSQL t s
            (some (MergeBuilder._generatePartitionFilter s p)) := by
      simp [MergeBuilder.generateMergeOperation, htruthy, hgd]
    have he : '%' ∉ (MergeBuilder._generatePartitionFilter s p).targetExpression.data :=
      pctNotInTargetExpr hpp
    constructor
    · rw [hsql]
      apply strExt
      simp only [MergeBuilder._buildMergeSQL, mergeTemplateHead, mergeTemplateTail,
        String.data_append, List.append_assoc]
      rw [List.append_right_inj, List.append_right_inj]
      conv_rhs => rw [← List.append_assoc]
      refine congrArg₂ (· ++ ·) (by decide) ?_
      exact congrArg₂ (· ++ ·) rfl (by decide)
    · rw [hsql, slotCount]
      have hdata : (MergeBuilder._buildMergeSQL t s
            (some (MergeBuilder._generatePartitionFilter s p))).data
          = ("\n      MERGE ").data ++ (t.data
            ++ ((" target\n      USING (SELECT * FROM `%s`) source\n      ON %s AND ").data
              ++ ((MergeBuilder._generatePartitionFilter s p).targetExpression.data
                ++ (" IN (%s)\n      WHEN MATCHED THEN\n        UPDATE SET %s\n      WHEN NOT MATCHED THEN\n        INSERT (%s)\n        VALUES (%s)\n    ").data))) := by
        simp [MergeBuilder._buildMergeSQL, String.data_append, List.append_assoc]
      rw [hdata, countPS_append_left (by decide), countPS_append_left hp,
        countPS_append_right (by decide), countPS_append_left he]
      decide

/-- Witness for C2 at a concrete configuration: the partitioned merge template
has exactly six FORMAT slots. -/
theorem claim_C2_witness :
    slotCount (MergeBuilder.generateMergeOperation "p.ds.t" "p.Staging.ds_t"
      { uniqueKeys := ["id"], partitionBy := some "day", clusterBy := [], description := "",
        labels := [], partitionExpirationDays := none }).mergeSQL = 6 :=
  ((claim_C2 "p.ds.t" "p.Staging.ds_t" _ (by decide)).2 "day" rfl
    (by decide) (by decide)).2

/-- C3: over all column catalogs, the reconciliation semantics of the emitted
queries yield `newColumns = C_staging − C_target` (set difference by name),
one additive `ALTER TABLE ... ADD COLUMN` statement per new column, and — when
the target exists — `updateAssignments = (C_target ∩ C_staging) − uniqueKeys`. -/
theorem claim_C3 (staging target : Catalog) (uniqueKeys : List String)
    (project dataset table : String) :
    (∀ n, n ∈ (newColumns staging target).map Prod.fst ↔
        n ∈ staging.names ∧ n ∉ target.names) ∧
    ((migrationAlterStatements project dataset table staging target).length
        = (newColumns staging target).length) ∧
    (∀ c ∈ newColumns staging target,
      ("ALTER TABLE `" ++ project ++ "." ++ dataset ++ "." ++ table ++ "` ADD COLUMN "
        ++ c.1 ++ " " ++ c.2) ∈ migrationAlterStatements project dataset table staging target) ∧
    (∀ n, n ∈ updateColumns true staging target uniqueKeys ↔
        n ∈ target.names ∧ n ∈ staging.names ∧ n ∉ uniqueKeys) := by
  refine ⟨?_, ?_, ?_, ?_⟩
  · intro n
    simp only [newColumns, Catalog.names, List.mem_map, List.mem_filter]
    constructor
    · rintro ⟨⟨a, b⟩, ⟨hmem, hbad⟩, rfl⟩
      refine ⟨⟨(a, b), hmem, rfl⟩, ?_⟩
      simpa using hbad
    · rintro ⟨⟨⟨a, b⟩, hmem, rfl⟩, hnb⟩
      exact ⟨(a, b), ⟨hmem, by simpa using hnb⟩, rfl⟩
  · simp [migrationAlterStatements]
  · intro c hc
    simp only [migrationAlterStatements, List.mem_map]
    exact ⟨c, hc, rfl⟩
  · intro n
    simp only [updateColumns, finalColumns, if_pos, List.mem_filter]
    constructor
    · rintro ⟨⟨hmem, hcont⟩, hkeys⟩
      refine ⟨by simpa using hcont, hmem, by simpa using hkeys⟩
    · rintro ⟨htgt, hstg, hkeys⟩
      exact ⟨⟨hstg, by simpa using htgt⟩, by simpa using hkeys⟩

theorem length_dropWhile_le_self {α : Type} (p : α → Bool) :
    ∀ l : List α, (l.dropWhile p).length ≤ l.length := by
  intro l
  induction l with
  | nil => simp
  | cons c cs ih =>
    rw [List.dropWhile_cons]
    by_cases h : p c = true
    · simp only [h, if_true]
      exact Nat.le_succ_of_le ih
    · simp [h]

theorem specTokenQualifyGo_stable : ∀ (m : Nat) (l : List Char) (n : Nat),
    l.length ≤ m → l.length ≤ n → specTokenQualifyGo m l = specTokenQualifyGo n l := by
  intro m
  induction m with
  | zero =>
    intro l n hm hn
    have hnil : l = [] := List.eq_nil_of_length_eq_zero (Nat.le_zero.mp hm)
    subst hnil
    cases n <;> rfl
  | succ m ih =>
    intro l n hm hn
    cases l with
    | nil => cases n <;> rfl
    | cons c cs =>
      cases n with
      | zero => simp at hn
      | succ n' =>
        have hm' : cs.length ≤ m := by simp only [List.length_cons] at hm; omega
        have hn' : cs.length ≤ n' := by simp only [List.length_cons] at hn; omega
        show specTokenQualifyGo (m + 1) (c :: cs) = specTokenQualifyGo (n' + 1) (c :: cs)
        cases hc : MergeBuilder.isIdentStart c with
        | true =>
          simp only [specTokenQualifyGo, hc, if_true]
          congr 1
          exact ih _ n' (le_trans (length_dropWhile_le_self _ _) hm')
            (le_trans (length_dropWhile_le_self _ _) hn')
        | false =>
          simp only [specTokenQualifyGo, hc, Bool.false_eq_true, if_false]
          congr 1
          exact ih cs n' hm' hn'

theorem qualGo_eq_specGo : ∀ (n : Nat) (cs : List Char), cs.length ≤ n →
    (MergeBuilder.qualGo [] cs = specTokenQualifyGo n cs ∧
     ∀ tok, tok ≠ [] → MergeBuilder.qualGo tok cs
       = MergeBuilder.emitTok (tok.reverse ++ cs.takeWhile MergeBuilder.isWordChar)
         ++ specTokenQualifyGo n (cs.dropWhile MergeBuilder.isWordChar)) := by
  intro n
  induction n with
  | zero =>
    intro cs hcs
    have hnil : cs = [] := List.eq_nil_of_length_eq_zero (Nat.le_zero.mp hcs)
    subst hnil
    refine ⟨rfl, ?_⟩
    intro tok htok
    obtain ⟨a, as, rfl⟩ := List.exists_cons_of_ne_nil htok
    simp [MergeBuilder.qualGo, specTokenQualifyGo]
  | succ n ih =>
    intro cs hcs
    cases cs with
    | nil =>
      refine ⟨rfl, ?_⟩
      intro tok htok
      obtain ⟨a, as, rfl⟩ := List.exists_cons_of_ne_nil htok
      simp [MergeBuilder.qualGo, specTokenQualifyGo]
    | cons c cs' =>
      have hcs' : cs'.length ≤ n := by simp only [List.length_cons] at hcs; omega
      obtain ⟨ihA, ihB⟩ := ih cs' hcs'
      constructor
      · cases hc : MergeBuilder.isIdentStart c with
        | true =>
          have h1 : MergeBuilder.qualGo [] (c :: cs') = MergeBuilder.qualGo [c] cs' := by
            simp [MergeBuilder.qualGo, hc]
          rw [h1, ihB [c] (by simp)]
          simp [specTokenQualifyGo, hc, MergeBuilder.emitTok]
        | false =>
          have h1 : MergeBuilder.qualGo [] (c :: cs') = c :: MergeBuilder.qualGo [] cs' := by
            simp [MergeBuilder.qualGo, hc]
          rw [h1, ihA]
          simp [specTokenQualifyGo, hc]
      · intro tok htok
        obtain ⟨a, as, rfl⟩ := List.exists_cons_of_ne_nil htok
        cases hw : MergeBuilder.isWordChar c with
        | true =>
          have h1 : MergeBuilder.qualGo (a :: as) (c :: cs')
              = MergeBuilder.qualGo (c :: a :: as) cs' := by
            simp [MergeBuilder.qualGo, hw]
          rw [h1, ihB (c :: a :: as) (by simp)]
          have hstab := specTokenQualifyGo_stable n (cs'.dropWhile MergeBuilder.isWordChar) (n + 1)
            (le_trans (length_dropWhile_le_self _ _) hcs')
            (le_trans (length_dropWhile_le_self _ _) (Nat.le_succ_of_le hcs'))
          rw [hstab]
          simp [hw, List.append_assoc]
        | false =>
          have hcId : MergeBuilder.isIdentStart c = false := by
            cases hq : MergeBuilder.isIdentStart c with
            | false => rfl
            | true =>
              have hwt : MergeBuilder.isWordChar c = true := by
                simp [MergeBuilder.isWordChar, hq]
              rw [hwt] at hw
              cases hw
          have h1 : MergeBuilder.qualGo (a :: as) (c :: cs')
              = MergeBuilder.emitTok (a :: as).reverse ++ (c :: MergeBuilder.qualGo [] cs') := by
            simp [MergeBuilder.qualGo, hw]
          rw [h1, ihA]
          simp [hw, specTokenQualifyGo, hcId]

theorem qualifyExpression_eq_spec (e : String) :
    MergeBuilder.qualifyExpression e = String.mk (specTokenQualify e.data) :=
  congrArg String.mk ((qualGo_eq_specGo e.data.length e.data le_rfl).1)

/-- Counterexample for C4: the claim says target-qualification never qualifies
all-uppercase tokens, but for the bare (parenthesis- and space-free) input
`"DAY"` — a single all-uppercase identifier token — the simple-column path
qualifies it wholesale, returning `"target.DAY"`. -/
theorem claim_C4_counterexample :
    MergeBuilder.jsIsUpperTok "DAY".data = true ∧
    (MergeBuilder._generatePartitionFilter "stg" "DAY").targetExpression = "target.DAY" := by
  constructor
  · decide
  · decide

/-- C4 (amended): for every expression input (containing `(` or a space) the
rewriter's output is exactly the token-wise map `specTokenQualify` — the input
split into maximal `[a-zA-Z_]\w*` identifier tokens, all-uppercase tokens never
qualified, every other identifier token given exactly one `target.` prefix, and
every other character unchanged — in particular `"DATE(created_at)"` becomes
`"DATE(target.created_at)"` — while a bare column name (no parenthesis, no
space) is qualified wholesale regardless of case, yielding `target.<c>`. -/
theorem claim_C4_amended (st : String) :
    (∀ e : String, (e.data.contains '(' || e.data.contains ' ') = true →
      (MergeBuilder._generatePartitionFilter st e).targetExpression
        = String.mk (specTokenQualify e.data)) ∧
    (MergeBuilder._generatePartitionFilter st "DATE(created_at)").targetExpression
        = "DATE(target.created_at)" ∧
    (MergeBuilder._generatePartitionFilter st "TIMESTAMP_TRUNC(created_at, DAY)").targetExpression
        = "TIMESTAMP_TRUNC(target.created_at, DAY)" ∧
    (∀ c : String, c.data.contains '(' = false → c.data.contains ' ' = false →
      (MergeBuilder._generatePartitionFilter st c).targetExpression = "target." ++ c) := by
  refine ⟨?_, by rfl, by rfl, ?_⟩
  · intro e he
    unfold MergeBuilder._generatePartitionFilter
    simp only [he, if_true]
    exact qualifyExpression_eq_spec e
  · intro c h1 h2
    have hex : (c.data.contains '(' || c.data.contains ' ') = false := by rw [h1, h2]; rfl
    unfold MergeBuilder._generatePartitionFilter
    simp only [hex]
    rfl

/-- Witness for C4 (amended): the concrete bare column `"day"` and the concrete
expression `"DATE(created_at)"`. -/
theorem claim_C4_witness :
    (MergeBuilder._generatePartitionFilter "proj.Staging.tbl" "day").targetExpression
      = "target.day" ∧
    (MergeBuilder._generatePartitionFilter "proj.Staging.tbl" "DATE(created_at)").targetExpression
      = String.mk (specTokenQualify "DATE(created_at)".data) :=
  ⟨(claim_C4_amended "proj.Staging.tbl").2.2.2 "day" (by decide) (by decide),
   (claim_C4_amended "proj.Staging.tbl").1 "DATE(created_at)" (by decide)⟩

theorem createOkIff (target : String) (cfg : JSConfig) (configDescription : String)
    (env : Env) (clk : Clock) :
    (∃ r, AdvancedFactory.create target cfg configDescription env clk = Except.ok r) ↔
      (ConfigValidator.validateFactoryConfig cfg target).isValid = true := by
  unfold AdvancedFactory.create
  cases hv : (ConfigValidator.validateFactoryConfig cfg target).isValid with
  | true => simp [hv]
  | false => simp [hv]

theorem validErrorsIff (cfg : JSConfig) (target : String) :
    (ConfigValidator.validateFactoryConfig cfg target).isValid = true ↔
      (ConfigValidator.validateFactoryConfig cfg target).errors = [] := by
  have h : (ConfigValidator.validateFactoryConfig cfg target).isValid
      = ((ConfigValidator.validateFactoryConfig cfg target).errors.length == 0) := rfl
  rw [h]
  simp [List.length_eq_zero]

/-- C7: the Configuration Validator collects every violation in one pass
(a configuration with three independent structural faults gets all three
errors listed, in validator order); `create` aborts exactly when at least one
error is present; and warnings alone never block generation (a configuration
with a warning but no error still generates). -/
theorem claim_C7 :
    (∀ (cfg : JSConfig) (target configDescription : String) (env : Env) (clk : Clock),
      (∃ r, AdvancedFactory.create target cfg configDescription env clk = Except.ok r) ↔
        (ConfigValidator.validateFactoryConfig cfg target).errors = []) ∧
    ((ConfigValidator.validateFactoryConfig
        { type := some "incremental", begin_daysBack := some (-1),
          clusterBy := some ["a", "b", "c", "d", "e"] } "t").errors
      = ["Incremental models require \"uniqueKeys\" property with at least one key",
         "begin_daysBack must be a non-negative integer",
         "clusterBy can have maximum 4 columns"]) ∧
    ((ConfigValidator.validateFactoryConfig
        { type := some "table", uniqueKeys := some ["id"] } "p.d.t").warnings
      = ["uniqueKeys property is ignored for table type (full refresh)"]) ∧
    (∃ r, AdvancedFactory.create "p.d.t" { type := some "table", uniqueKeys := some ["id"] }
        "" {} ⟨"2026-01-01", 0⟩ = Except.ok r) := by
  refine ⟨?_, by rfl, by rfl, ?_⟩
  · intro cfg target configDescription env clk
    rw [createOkIff, validErrorsIff]
  · rw [createOkIff]
    rfl

/-- Witness for C7's universal part at a concrete valid configuration. -/
theorem claim_C7_witness :
    ∃ r, AdvancedFactory.create "p.d.x" { type := some "view" } "" {} ⟨"2026-01-01", 0⟩
      = Except.ok r :=
  ((claim_C7.1 { type := some "view" } "p.d.x" "" {} ⟨"2026-01-01", 0⟩).mpr (by rfl))

/-- C9: a `row_count` check declaring neither `minRows` nor `maxRows` is
rejected with an error (and fails whole-config validation); a `row_count`
check with `minRows = 100` and no `maxRows` passes validation and emits
exactly one summary sub-query, whose `HAVING COUNT(*) < 100` clause produces
a row only when the observed count is below the bound. -/
theorem claim_C9 (tinfo : AssertionViewsBuilder.TableInfo) (pf : String) :
    (ConfigValidator._validateBusinessRuleAssertion { type := some "row_count" }
        "business_rules[0]"
      = ["business_rules[0]: row_count assertion requires at least \"minRows\" or \"maxRows\""]) ∧
    ((ConfigValidator.validateFactoryConfig
        { type := some "table",
          assertions := some { business_rules := some [{ type := some "row_count" }] } }
        "t").isValid = false) ∧
    (ConfigValidator._validateBusinessRuleAssertion
        { type := some "row_count", minRows := some 100 } "business_rules[0]" = []) ∧
    ((ConfigValidator.validateFactoryConfig
        { type := some "table",
          assertions := some
            { business_rules := some [{ type := some "row_count", minRows := some 100 }] } }
        "t").isValid = true) ∧
    (AssertionViewsBuilder._generateRowCountViewQueries
        { type := some "row_count", minRows := some 100 } tinfo pf
      = ["\n                SELECT 'row_count: min_rows_" ++ "100"
          ++ "' as rule_name,\n                       COUNT(*) as actual_count,\n                       "
          ++ "100" ++ " as min_expected\n                FROM `"
          ++ tinfo.tableRefForAssertions ++ "`\n                WHERE 1=1 " ++ pf
          ++ "\n                HAVING COUNT(*) < " ++ "100" ++ "\n            "]) := by
  exact ⟨rfl, rfl, rfl, rfl, rfl⟩

/-- C8: for a data-quality block `[{not_null, columns:[a,b]}, {not_null,
column:c}]` the builder groups both checks into a single
`..._data_quality_not_null_build` view statement whose body is exactly the
three per-column sub-queries joined by `UNION ALL`; at a concrete instance the
output contains exactly one `CREATE OR REPLACE VIEW` and exactly two
`UNION ALL` separators. -/
theorem claim_C8 (a b c : String) (tinfo : AssertionViewsBuilder.TableInfo) (ds pf : String) :
    (AssertionViewsBuilder._generateDataQualityViews tinfo ds
        [{ type := some "not_null", columns := some [a, b] },
         { type := some "not_null", column := some c }] pf
      = "\n-- 📊 " ++ "DATA QUALITY" ++ ": Create " ++ "not_null"
          ++ " assertion view with partition filtering\nEXECUTE IMMEDIATE CONCAT(\"\"\"\n    CREATE OR REPLACE VIEW `"
          ++ (ds ++ "." ++ tinfo.tableIdForName ++ "_" ++ "data_quality" ++ "_" ++ "not_null"
              ++ "_build")
          ++ "` AS\n    \"\"\", REPLACE(\"\"\""
          ++ (("SELECT '" ++ a ++ "' as rule_name, " ++ tinfo.assertionColumnsList
                ++ " FROM `" ++ tinfo.tableRefForAssertions ++ "` WHERE " ++ a ++ " IS NULL "
                ++ pf)
              ++ "\nUNION ALL\n"
              ++ ("SELECT '" ++ b ++ "' as rule_name, " ++ tinfo.assertionColumnsList
                ++ " FROM `" ++ tinfo.tableRefForAssertions ++ "` WHERE " ++ b ++ " IS NULL "
                ++ pf)
              ++ "\nUNION ALL\n"
              ++ ("SELECT '" ++ c ++ "' as rule_name, " ++ tinfo.assertionColumnsList
                ++ " FROM `" ++ tinfo.tableRefForAssertions ++ "` WHERE " ++ c ++ " IS NULL "
                ++ pf))
          ++ "\"\"\", \"partition_values\", partition_values));\n") ∧
    (countOccStr "CREATE OR REPLACE VIEW"
        (AssertionViewsBuilder._generateDataQualityViews
          { dataset := "d", table := "t", tableIdForName := "d_t",
            tableRefForAssertions := "p.d.t", uniqueKeys := ["id"], uniqueKeysList := "id",
            assertionColumns := ["id"], assertionColumnsList := "id" } "adb"
          [{ type := some "not_null", columns := some ["a", "b"] },
           { type := some "not_null", column := some "c" }] "") = 1) ∧
    (countOccStr "\nUNION ALL\n"
        (AssertionViewsBuilder._generateDataQualityViews
          { dataset := "d", table := "t", tableIdForName := "d_t",
            tableRefForAssertions := "p.d.t", uniqueKeys := ["id"], uniqueKeysList := "id",
            assertionColumns := ["id"], assertionColumnsList := "id" } "adb"
          [{ type := some "not_null", columns := some ["a", "b"] },
           { type := some "not_null", column := some "c" }] "") = 2) ∧
    (countOccStr "_data_quality_not_null_build"
        (AssertionViewsBuilder._generateDataQualityViews
          { dataset := "d", table := "t", tableIdForName := "d_t",
            tableRefForAssertions := "p.d.t", uniqueKeys := ["id"], uniqueKeysList := "id",
            assertionColumns := ["id"], assertionColumnsList := "id" } "adb"
          [{ type := some "not_null", columns := some ["a", "b"] },
           { type := some "not_null", column := some "c" }] "") = 1) := by
  exact ⟨rfl, by decide, by decide, by decide⟩

/-- Counterexample for C1: two calls to `IncrementalPattern.generate` with the
same JavaScript arguments need not return byte-identical text, because the
generator reads the ambient clock.  First conjunct: even with deterministic
staging naming, calls observing different dates return different preSQL (the
banner embeds the generation date).  Second conjunct: with
`timestampInStagingName: true`, calls at different `Date.now()` readings
return different results — the staging-table name embedded in the emitted
program (witnessed here through the returned metadata) differs. -/
theorem claim_C1_counterexample :
    ((IncrementalPattern.generate "p.d.t" ["id"]
        { type := some "incremental", uniqueKeys := some ["id"] } {} ⟨"2026-01-01", 0⟩).preSQL
      ≠ (IncrementalPattern.generate "p.d.t" ["id"]
        { type := some "incremental", uniqueKeys := some ["id"] } {} ⟨"2026-01-02", 0⟩).preSQL) ∧
    (((IncrementalPattern.generate "p.d.t" ["id"]
        { type := some "incremental", uniqueKeys := some ["id"],
          timestampInStagingName := some true } {} ⟨"2026-01-01", 1000⟩).metadata.map
            (fun m => m.stagingTable))
      ≠ ((IncrementalPattern.generate "p.d.t" ["id"]
        { type := some "incremental", uniqueKeys := some ["id"],
          timestampInStagingName := some true } {} ⟨"2026-01-01", 2000⟩).metadata.map
            (fun m => m.stagingTable))) := by
  constructor
  · decide
  · decide

/-- C1 (amended): generation is deterministic once the clock readings agree —
with timestamp-suffixed staging naming disabled, two calls that observe the
same generation date return identical results (bytewise identical preSQL and
postSQL) regardless of the millisecond clock. -/
theorem claim_C1_amended (t : String) (keys : List String) (cfg : JSConfig) (env : Env)
    (d : String) (n1 n2 : Nat) (hts : cfg.timestampInStagingName.getD false = false) :
    IncrementalPattern.generate t keys cfg env ⟨d, n1⟩
      = IncrementalPattern.generate t keys cfg env ⟨d, n2⟩ := by
  cases h : cfg.timestampInStagingName with
  | none =>
    unfold IncrementalPattern.generate
    rw [h]
    rfl
  | some b =>
    rw [h] at hts
    simp only [Option.getD] at hts
    subst hts
    unfold IncrementalPattern.generate
    rw [h]
    rfl

/-- Witness for C1 (amended) at a concrete configuration and two clock
readings on the same date. -/
theorem claim_C1_witness :
    IncrementalPattern.generate "p.d.t" ["id"]
        { type := some "incremental", uniqueKeys := some ["id"] } {} ⟨"2026-01-01", 1000⟩
      = IncrementalPattern.generate "p.d.t" ["id"]
        { type := some "incremental", uniqueKeys := some ["id"] } {} ⟨"2026-01-01", 2000⟩ :=
  claim_C1_amended "p.d.t" ["id"] _ {} "2026-01-01" 1000 2000 rfl

theorem slotCount_merge_six (t s : String) (pf : MergeBuilder.PartitionFilter)
    (hp : '%' ∉ t.data) (he : '%' ∉ pf.targetExpression.data) :
    slotCount (MergeBuilder._buildMergeSQL t s (some pf)) = 6 := by
  rw [slotCount]
  have hdata : (MergeBuilder._buildMergeSQL t s (some pf)).data
      = ("\n      MERGE ").data ++ (t.data
        ++ ((" target\n      USING (SELECT * FROM `%s`) source\n      ON %s AND ").data
          ++ (pf.targetExpression.data
            ++ (" IN (%s)\n      WHEN MATCHED THEN\n        UPDATE SET %s\n      WHEN NOT MATCHED THEN\n        INSERT (%s)\n        VALUES (%s)\n    ").data))) := by
    simp [MergeBuilder._buildMergeSQL, String.data_append, List.append_assoc]
  rw [hdata, countPS_append_left (by decide), countPS_append_left hp,
    countPS_append_right (by decide), countPS_append_left he]
  decide

/-- C6: for an incremental, partitioned configuration, the target-exists branch
of the emitted program (`ELSE` arm of the pre-amble, `ELSE` arm of the
post-amble, shown here with the staging name substituted for the placeholder
argument) creates the staging artifact with a 12-hour expiration, emits the
schema-migration statements, extracts partition values from the staging
artifact, and ends by building (`SET merge_sql = FORMAT(...)` over the six-slot
template) and executing (`EXECUTE IMMEDIATE merge_sql`) the merge referencing
the staging artifact. -/
theorem claim_C6 (st t p ctsql smsql : String) (keys vd : List String)
    (cfg : JSConfig) (clk : Clock) (mcfg : MergeConfig)
    (hmc : mcfg.partitionBy = some p) (hpe : (p == "") = false)
    (hpctT : '%' ∉ t.data) (hpctP : '%' ∉ p.data) :
    IncrementalPattern._buildPreSQL vd st t keys (some p) false cfg clk
      = "\n/*\n╔════════════\u2550════════════\u2550════════════\u2550════════════\u2550═══════════╗\n║              🔀 SMART INCREMENTAL PATTERN                    ║\n╠════════════\u2550════════════\u2550════════════\u2550════════════\u2550═══════════╣\n║ Mode: "
        ++ "INCREMENTAL " ++ " │ Keys: " ++ jsPadEnd (String.intercalate ", " keys) 20
        ++ " ║\n║ Partition: " ++ jsPadEnd p 18 ++ " │ Generated: " ++ clk.dateStr
        ++ " ║\n║ Smart Mode: Auto-switches to snapshot for first run          ║\n╚════════════\u2550════════════\u2550════════════\u2550════════════\u2550═══════════╝\n*/\n\n"
        ++ String.intercalate "\n" vd
        ++ "\nDECLARE create_sql STRING;\n\n-- 🔍 CHECK: Determine if target table exists\nSET target_exists = (\n    SELECT COUNT(*) > 0\n    FROM `"
        ++ (IncrementalPattern._parseTableName t).project ++ "."
        ++ (IncrementalPattern._parseTableName t).dataset
        ++ "`.INFORMATION_SCHEMA.TABLES\n    WHERE table_name = '"
        ++ (IncrementalPattern._parseTableName t).table
        ++ "'\n);\n\n-- ========== BUILD CREATE STATEMENT DYNAMICALLY ==========\nIF NOT target_exists THEN\n"
        ++ IncrementalPattern.preSnapshotBranch (IncrementalPattern.snapshotCreateStatement t cfg)
        ++ "ELSE\n"
        ++ ("    -- Branch 2: INCREMENTAL - Create staging table\n    SET create_sql = \"\"\"\n        CREATE OR REPLACE TABLE "
            ++ st
            ++ "\n        OPTIONS(\n          expiration_timestamp=TIMESTAMP_ADD(CURRENT_TIMESTAMP(), INTERVAL 12 HOUR)\n        )\n        AS (\n    \"\"\";\n")
        ++ "END IF;\n\n-- Execute the dynamic CREATE statement with the SELECT query\nEXECUTE IMMEDIATE create_sql || \"\"\"\n      " ∧
    IncrementalPattern._buildPostSQL ctsql smsql (MergeBuilder.generateMergeOperation t st mcfg)
        st t (some p) cfg
      = "\n        )  -- Close the AS ( from CREATE statement\n\"\"\";  -- Close the EXECUTE IMMEDIATE\n\n-- ========== BRANCH 1: SNAPSHOT MODE (First Run) ==========\nIF NOT target_exists THEN\n"
        ++ IncrementalPattern.postSnapshotBranch (some p) t
        ++ "\n-- ========== BRANCH 2: INCREMENTAL MODE (Subsequent Runs) ==========\nELSE\n"
        ++ ("    -- 🏗️ TARGET: Ensure target table exists with proper schema\n    " ++ ctsql
            ++ ";\n\n    -- 🔄 SCHEMA: Migrate and sync column definitions\n    " ++ smsql
            ++ "\n\n    -- 📋 METADATA: Extract dynamic schema information\n    EXECUTE IMMEDIATE FORMAT(\"\"\" %s \"\"\", \"\"\""
            ++ SchemaManager.generateSchemaSQL t st mcfg.uniqueKeys
            ++ "\"\"\")\n    INTO update_set, insert_cols, insert_vals, join_condition;\n\n    -- 📊 PARTITIONS: "
            ++ "Extract values for targeted merge"
            ++ "\n    "
            ++ ("SET partition_values = (\n           SELECT STRING_AGG(DISTINCT CONCAT(\"'\", "
                ++ p ++ ", \"'\"), \", \")\n           FROM " ++ st ++ "\n         );")
            ++ "\n\n    -- 🔀 MERGE: Build and execute dynamic UPSERT operation\n    SET merge_sql = FORMAT(\"\"\" "
            ++ MergeBuilder._buildMergeSQL t st (some (MergeBuilder._generatePartitionFilter st p))
            ++ " \"\"\",\n      "
            ++ ("'" ++ st
                ++ "', join_condition, partition_values, update_set, insert_cols, insert_vals")
            ++ "\n    );\n\n    -- ⚡ EXECUTE: Apply changes to target table\n    EXECUTE IMMEDIATE merge_sql;\n\n    /*\n    ┌────────────\u2500────────────\u2500────────────\u2500────────────\u2500─────────┐\n    │ ✅ INCREMENTAL PROCESSING COMPLETE                         │\n    │ • Staging table expires automatically in 12 hours          │\n    │ • Partition values available for assertion view filtering   │\n    └────────────\u2500────────────\u2500────────────\u2500────────────\u2500─────────┘\n    */\n")
        ++ "END IF;\n      " ∧
    slotCount (MergeBuilder.generateMergeOperation t st mcfg).mergeSQL = 6 := by
  have hgd : mcfg.partitionBy.getD "" = p := by rw [hmc]; rfl
  have htruthy : jsStrTruthy mcfg.partitionBy = true := by rw [hmc]; simp [jsStrTruthy, hpe]
  refine ⟨?_, ?_, ?_⟩
  · simp only [IncrementalPattern._buildPreSQL, IncrementalPattern.preIncrementalBranch,
      jsStrOr, hpe, Bool.false_eq_true, if_false]
    rfl
  · simp only [IncrementalPattern._buildPostSQL, IncrementalPattern.postIncrementalBranch,
      MergeBuilder.generateMergeOperation, htruthy, hgd, if_true]
    rfl
  · have hsql : (MergeBuilder.generateMergeOperation t st mcfg).mergeSQL
        = MergeBuilder._buildMergeSQL t st
            (some (MergeBuilder._generatePartitionFilter st p)) := by
      simp [MergeBuilder.generateMergeOperation, htruthy, hgd]
    rw [hsql]
    exact slotCount_merge_six t st _ hpctT (pctNotInTargetExpr hpctP)

/-- Witness for C6 at a concrete configuration: the merge built in the
target-exists branch has exactly six FORMAT slots. -/
theorem claim_C6_witness :
    slotCount (MergeBuilder.generateMergeOperation "p.d.t" "p.Staging.d_t"
      { uniqueKeys := ["id"], partitionBy := some "day", clusterBy := [], description := "",
        labels := [], partitionExpirationDays := none }).mergeSQL = 6 :=
  (claim_C6 "p.Staging.d_t" "p.d.t" "day" "CT" "SM" ["id"] [] {} ⟨"2026-01-01", 0⟩
    { uniqueKeys := ["id"], partitionBy := some "day", clusterBy := [], description := "",
      labels := [], partitionExpirationDays := none }
    rfl (by decide) (by decide) (by decide)).2.2

/-- A pattern absent from the snapshot-branch scaffolding and from the assembled
`CREATE` statement does not occur anywhere in branch 1 of the pre-amble. -/
theorem noOcc_preSnapshotBranch (pat : List Char) (sc : String)
    (h1 : ¬ pat <:+: ("    -- Branch 1: SNAPSHOT - Create target directly\n    SET create_sql = \"\"\"\n        ").data)
    (h2 : ∀ k, k < pat.length → 0 < k →
      ¬ pat.take k <:+ ("    -- Branch 1: SNAPSHOT - Create target directly\n    SET create_sql = \"\"\"\n        ").data)
    (h3 : '\n' ∉ pat)
    (h4 : ¬ pat <:+: sc.data)
    (h5 : ¬ pat <:+: ("\n        AS (\n    \"\"\";\n").data) :
    ¬ pat <:+: (IncrementalPattern.preSnapshotBranch sc).data := by
  have hd : (IncrementalPattern.preSnapshotBranch sc).data
      = ("    -- Branch 1: SNAPSHOT - Create target directly\n    SET create_sql = \"\"\"\n        ").data
        ++ sc.data ++ ("\n        AS (\n    \"\"\";\n").data := rfl
  rw [hd, List.append_assoc]
  refine noOccLitAppend h1 h2 ?_
  have hL2 : sc.data ++ ("\n        AS (\n    \"\"\";\n").data
      = sc.data ++ ('\n' :: ("        AS (\n    \"\"\";\n").data) := rfl
  rw [hL2]
  refine noOccVarAppend h3 h4 ?_
  have hL2' : ('\n' :: ("        AS (\n    \"\"\";\n").data) = ("\n        AS (\n    \"\"\";\n").data := rfl
  rw [hL2']
  exact h5

/-- Generic absence of a pattern in a five-segment concatenation
`L3 ++ A ++ pd ++ B ++ td ++ CL4` whose third and fifth segments are arbitrary
but pattern-free, and whose fourth and sixth segments start with characters
outside the pattern. -/
theorem noOccFiveSeg {pat L3 A pd B td CL4 : List Char} {c1 c2 : Char} {B' CL4' : List Char}
    (hBshape : B = c1 :: B') (hCshape : CL4 = c2 :: CL4')
    (hc1 : c1 ∉ pat) (hc2 : c2 ∉ pat)
    (hpd : ¬ pat <:+: pd) (htd : ¬ pat <:+: td)
    (hL3 : ¬ pat <:+: L3) (hL3k : ∀ k, k < pat.length → 0 < k → ¬ pat.take k <:+ L3)
    (hA : ¬ pat <:+: A) (hAk : ∀ k, k < pat.length → 0 < k → ¬ pat.take k <:+ A)
    (hB : ¬ pat <:+: B) (hBk : ∀ k, k < pat.length → 0 < k → ¬ pat.take k <:+ B)
    (hCL4 : ¬ pat <:+: CL4) :
    ¬ pat <:+: L3 ++ (A ++ (pd ++ (B ++ (td ++ CL4)))) := by
  refine noOccLitAppend hL3 hL3k ?_
  refine noOccLitAppend hA hAk ?_
  subst hBshape
  rw [List.cons_append]
  refine noOccVarAppend hc1 hpd ?_
  rw [← List.cons_append]
  refine noOccLitAppend hB hBk ?_
  subst hCshape
  refine noOccVarAppend hc2 htd ?_
  exact hCL4

/-- A pattern containing a space but neither newline nor comma, absent from the
scaffolding literals, does not occur anywhere in branch 1 of the post-amble when
the partition column and target name contain no space. -/
theorem noOcc_postSnapshotBranch (pat : List Char) (p t : String)
    (hpe : (p == "") = false)
    (hsp : ' ' ∈ pat) (hn : '\n' ∉ pat) (hcm : ',' ∉ pat)
    (hp : ' ' ∉ p.data) (ht : ' ' ∉ t.data)
    (hL3 : ¬ pat <:+: ("    -- 📊 PARTITIONS: Extract partition values from newly created target table\n    ").data)
    (hL3k : ∀ k, k < pat.length → 0 < k →
      ¬ pat.take k <:+ ("    -- 📊 PARTITIONS: Extract partition values from newly created target table\n    ").data)
    (hA : ¬ pat <:+: ("SET partition_values = (\n           SELECT STRING_AGG(DISTINCT CONCAT(\"'\", ").data)
    (hAk : ∀ k, k < pat.length → 0 < k →
      ¬ pat.take k <:+ ("SET partition_values = (\n           SELECT STRING_AGG(DISTINCT CONCAT(\"'\", ").data)
    (hB : ¬ pat <:+: (", \"'\"), \", \")\n           FROM ").data)
    (hBk : ∀ k, k < pat.length → 0 < k →
      ¬ pat.take k <:+ (", \"'\"), \", \")\n           FROM ").data)
    (hCL4 : ¬ pat <:+: ("\n         );").data
      ++ ("\n\n    /*\n    ┌────────────\u2500────────────\u2500────────────\u2500────────────\u2500─────────┐\n    │ ✅ SNAPSHOT MODE COMPLETE (First Run)                      │\n    │ • Target table created directly from SELECT                 │\n    │ • No staging table or MERGE needed (50% cost savings!)     │\n    │ • Partition values extracted for assertion views           │\n    └────────────\u2500────────────\u2500────────────\u2500────────────\u2500─────────┘\n    */\n").data) :
    ¬ pat <:+: (IncrementalPattern.postSnapshotBranch (some p) t).data := by
  have htr : jsStrTruthy (some p) = true := by simp [jsStrTruthy, hpe]
  have hd : (IncrementalPattern.postSnapshotBranch (some p) t).data
      = ("    -- 📊 PARTITIONS: Extract partition values from newly created target table\n    ").data
        ++ (("SET partition_values = (\n           SELECT STRING_AGG(DISTINCT CONCAT(\"'\", ").data
        ++ (p.data
        ++ ((", \"'\"), \", \")\n           FROM ").data
        ++ (t.data
        ++ (("\n         );").data
        ++ ("\n\n    /*\n    ┌────────────\u2500────────────\u2500────────────\u2500────────────\u2500─────────┐\n    │ ✅ SNAPSHOT MODE COMPLETE (First Run)                      │\n    │ • Target table created directly from SELECT                 │\n    │ • No staging table or MERGE needed (50% cost savings!)     │\n    │ • Partition values extracted for assertion views           │\n    └────────────\u2500────────────\u2500────────────\u2500────────────\u2500─────────┘\n    */\n").data))))) := by
    simp only [IncrementalPattern.postSnapshotBranch, htr, if_true, Option.getD_some,
      String.data_append, List.append_assoc]
  rw [hd]
  exact noOccFiveSeg rfl rfl hcm hn (noOccOfMissingChar hsp hp) (noOccOfMissingChar hsp ht)
    hL3 hL3k hA hAk hB hBk hCL4

/-- C5: for an incremental, partitioned, non-full-refresh configuration, the
target-absent branch of the emitted program sets `create_sql` to the direct
`CREATE TABLE <target>` statement (no staging artifact), and its post-amble
extracts the distinct partition values from the newly created target; neither
branch contains a staging-table creation (`CREATE OR REPLACE TABLE`), a schema
migration (`ALTER TABLE`), or a merge (`WHEN MATCHED`), provided the
user-supplied names are space-free and the assembled `CREATE` statement does
not itself smuggle those markers in. -/
theorem claim_C5 (t p : String) (cfg : JSConfig)
    (hpe : (p == "") = false)
    (hpsp : ' ' ∉ p.data) (htsp : ' ' ∉ t.data)
    (hsc1 : ¬ "CREATE OR REPLACE TABLE".data <:+: (IncrementalPattern.snapshotCreateStatement t cfg).data)
    (hsc2 : ¬ "ALTER TABLE".data <:+: (IncrementalPattern.snapshotCreateStatement t cfg).data)
    (hsc3 : ¬ "WHEN MATCHED".data <:+: (IncrementalPattern.snapshotCreateStatement t cfg).data) :
    IncrementalPattern.preSnapshotBranch (IncrementalPattern.snapshotCreateStatement t cfg)
      = "    -- Branch 1: SNAPSHOT - Create target directly\n    SET create_sql = \"\"\"\n        "
        ++ IncrementalPattern.snapshotCreateStatement t cfg ++ "\n        AS (\n    \"\"\";\n" ∧
    (∃ rest, IncrementalPattern.snapshotCreateStatement t cfg = "CREATE TABLE " ++ t ++ rest) ∧
    IncrementalPattern.postSnapshotBranch (some p) t
      = "    -- 📊 PARTITIONS: Extract partition values from newly created target table\n    "
        ++ ("SET partition_values = (\n           SELECT STRING_AGG(DISTINCT CONCAT(\"'\", "
            ++ p ++ ", \"'\"), \", \")\n           FROM " ++ t ++ "\n         );")
        ++ "\n\n    /*\n    ┌────────────\u2500────────────\u2500────────────\u2500────────────\u2500─────────┐\n    │ ✅ SNAPSHOT MODE COMPLETE (First Run)                      │\n    │ • Target table created directly from SELECT                 │\n    │ • No staging table or MERGE needed (50% cost savings!)     │\n    │ • Partition values extracted for assertion views           │\n    └────────────\u2500────────────\u2500────────────\u2500────────────\u2500─────────┘\n    */\n" ∧
    ¬ "CREATE OR REPLACE TABLE".data <:+:
      (IncrementalPattern.preSnapshotBranch (IncrementalPattern.snapshotCreateStatement t cfg)).data ∧
    ¬ "ALTER TABLE".data <:+:
      (IncrementalPattern.preSnapshotBranch (IncrementalPattern.snapshotCreateStatement t cfg)).data ∧
    ¬ "WHEN MATCHED".data <:+:
      (IncrementalPattern.preSnapshotBranch (IncrementalPattern.snapshotCreateStatement t cfg)).data ∧
    ¬ "CREATE OR REPLACE TABLE".data <:+:
      (IncrementalPattern.postSnapshotBranch (some p) t).data ∧
    ¬ "ALTER TABLE".data <:+:
      (IncrementalPattern.postSnapshotBranch (some p) t).data ∧
    ¬ "WHEN MATCHED".data <:+:
      (IncrementalPattern.postSnapshotBranch (some p) t).data := by
  have htr : jsStrTruthy (some p) = true := by simp [jsStrTruthy, hpe]
  refine ⟨rfl, ?_, ?_, ?_, ?_, ?_, ?_, ?_, ?_⟩
  · cases hm : TableBuilder._buildTableMetadata cfg.tb == "" with
    | true =>
      refine ⟨TableOptions.build cfg.tb, ?_⟩
      simp only [IncrementalPattern.snapshotCreateStatement, hm, if_true]
    | false =>
      refine ⟨TableOptions.build cfg.tb ++ "\n" ++ TableBuilder._buildTableMetadata cfg.tb, ?_⟩
      simp only [IncrementalPattern.snapshotCreateStatement, hm, Bool.false_eq_true, if_false]
      apply strExt
      simp only [String.data_append, List.append_assoc]
  · simp only [IncrementalPattern.postSnapshotBranch, htr, if_true, Option.getD_some]
  · exact noOcc_preSnapshotBranch _ _ (by decide) (by decide) (by decide) hsc1 (by decide)
  · exact noOcc_preSnapshotBranch _ _ (by decide) (by decide) (by decide) hsc2 (by decide)
  · exact noOcc_preSnapshotBranch _ _ (by decide) (by decide) (by decide) hsc3 (by decide)
  · exact noOcc_postSnapshotBranch _ p t hpe (by decide) (by decide) (by decide) hpsp htsp
      (by decide) (by decide) (by decide) (by decide) (by decide) (by decide) (by decide)
  · exact noOcc_postSnapshotBranch _ p t hpe (by decide) (by decide) (by decide) hpsp htsp
      (by decide) (by decide) (by decide) (by decide) (by decide) (by decide) (by decide)
  · exact noOcc_postSnapshotBranch _ p t hpe (by decide) (by decide) (by decide) hpsp htsp
      (by decide) (by decide) (by decide) (by decide) (by decide) (by decide) (by decide)

/-- Witness for C5 at the spec's scenario-A configuration (`partitionBy = "day"`):
the snapshot branches contain neither a staging-table creation nor a merge. -/
theorem claim_C5_witness :
    ¬ "CREATE OR REPLACE TABLE".data <:+:
      (IncrementalPattern.preSnapshotBranch
        (IncrementalPattern.snapshotCreateStatement "proj.ds.tbl" {})).data ∧
    ¬ "WHEN MATCHED".data <:+:
      (IncrementalPattern.postSnapshotBranch (some "day") "proj.ds.tbl").data := by
  have h := claim_C5 "proj.ds.tbl" "day" {} (by decide) (by decide) (by decide)
    (by decide) (by decide) (by decide)
  exact ⟨h.2.2.2.1, h.2.2.2.2.2.2.2.2⟩

/-- A character other than the space of the right pad survives `jsPadEnd` only
if it was in the string being padded. -/
theorem padNoChar {c : Char} {s : String} {n : Nat} (hc : c ≠ ' ') (hs : c ∉ s.data) :
    c ∉ (jsPadEnd s n).data := by
  intro h
  have hdata : (jsPadEnd s n).data = s.data ++ List.replicate (n - s.length) ' ' := rfl
  rw [hdata] at h
  rcases List.mem_append.mp h with h | h
  · exact hs h
  · exact hc (List.eq_of_mem_replicate h)

/-- Peeling a pattern-free variable segment whose successor is a concrete
segment at least as long as the pattern: a crossing occurrence would force a
proper pattern suffix to be a prefix of that successor. -/
theorem noOccVarLitNext {pat v B rest : List Char}
    (hv : ¬ pat <:+: v)
    (hlen : pat.length ≤ B.length)
    (hdropk : ∀ k, k < pat.length → 0 < k → ¬ pat.drop k <+: B)
    (hrest : ¬ pat <:+: B ++ rest) :
    ¬ pat <:+: v ++ (B ++ rest) := by
  refine noOccAppend hv hrest (fun k hk1 hk2 hc => ?_)
  rcases prefixAppendCases hc.2 with h | h
  · exact hdropk k hk2 hk1 h
  · have hlB := h.length_le
    have hld : (pat.drop k).length = pat.length - k := List.length_drop k pat
    omega

/-- Absence of a pattern from the snapshot pre-amble shape: banner, padded
generation date, cleanup comment, `DROP TABLE IF EXISTS <target>;`, creation
comment, the assembled `CREATE` statement and the `AS (` opener. -/
theorem noOcc_snapshotPreShape {pat : List Char} (pad t cs : List Char)
    (hB1 : ¬ pat <:+: ("\n/*\n┌────────────\u2500────────────\u2500────────────\u2500────────────\u2500───────────┐\n│                  📸 SNAPSHOT PATTERN                    │\n│ Mode: Full Table Refresh                               │\n│ Generated: ").data)
    (hB1k : ∀ k, k < pat.length → 0 < k →
      ¬ pat.take k <:+ ("\n/*\n┌────────────\u2500────────────\u2500────────────\u2500────────────\u2500───────────┐\n│                  📸 SNAPSHOT PATTERN                    │\n│ Mode: Full Table Refresh                               │\n│ Generated: ").data)
    (hpad : ¬ pat <:+: pad)
    (hlen : pat.length ≤ (" │\n└────────────\u2500────────────\u2500────────────\u2500────────────\u2500───────────┘\n*/\n\n-- 🔄 CLEANUP: Drop existing table to handle schema changes\n").data.length)
    (hdrop : ∀ k, k < pat.length → 0 < k →
      ¬ pat.drop k <+: (" │\n└────────────\u2500────────────\u2500────────────\u2500────────────\u2500───────────┘\n*/\n\n-- 🔄 CLEANUP: Drop existing table to handle schema changes\n").data)
    (hB2 : ¬ pat <:+: (" │\n└────────────\u2500────────────\u2500────────────\u2500────────────\u2500───────────┘\n*/\n\n-- 🔄 CLEANUP: Drop existing table to handle schema changes\n").data)
    (hB2k : ∀ k, k < pat.length → 0 < k →
      ¬ pat.take k <:+ (" │\n└────────────\u2500────────────\u2500────────────\u2500────────────\u2500───────────┘\n*/\n\n-- 🔄 CLEANUP: Drop existing table to handle schema changes\n").data)
    (hDR : ¬ pat <:+: ("DROP TABLE IF EXISTS ").data)
    (hDRk : ∀ k, k < pat.length → 0 < k → ¬ pat.take k <:+ ("DROP TABLE IF EXISTS ").data)
    (hsemi : ';' ∉ pat)
    (ht : ¬ pat <:+: t)
    (hSB3 : ¬ pat <:+: (";" ++ "\n\n-- 🏗️ CREATE: Build new table with current data\n").data)
    (hSB3k : ∀ k, k < pat.length → 0 < k →
      ¬ pat.take k <:+ (";" ++ "\n\n-- 🏗️ CREATE: Build new table with current data\n").data)
    (hnl : '\n' ∉ pat)
    (hcs : ¬ pat <:+: cs)
    (hB4 : ¬ pat <:+: ("\nAS (\n      ").data) :
    ¬ pat <:+: ("\n/*\n┌────────────\u2500────────────\u2500────────────\u2500────────────\u2500───────────┐\n│                  📸 SNAPSHOT PATTERN                    │\n│ Mode: Full Table Refresh                               │\n│ Generated: ").data
      ++ (pad
      ++ ((" │\n└────────────\u2500────────────\u2500────────────\u2500────────────\u2500───────────┘\n*/\n\n-- 🔄 CLEANUP: Drop existing table to handle schema changes\n").data
      ++ (("DROP TABLE IF EXISTS ").data
      ++ (t
      ++ ((";").data
      ++ (("\n\n-- 🏗️ CREATE: Build new table with current data\n").data
      ++ (cs
      ++ ("\nAS (\n      ").data))))))) := by
  refine noOccLitAppend hB1 hB1k ?_
  refine noOccVarLitNext hpad hlen hdrop ?_
  refine noOccLitAppend hB2 hB2k ?_
  refine noOccLitAppend hDR hDRk ?_
  have h1 : (";").data
        ++ (("\n\n-- 🏗️ CREATE: Build new table with current data\n").data
        ++ (cs ++ ("\nAS (\n      ").data))
      = ';' :: (("\n\n-- 🏗️ CREATE: Build new table with current data\n").data
        ++ (cs ++ ("\nAS (\n      ").data)) := rfl
  rw [h1]
  refine noOccVarAppend hsemi ht ?_
  have h2 : ';' :: (("\n\n-- 🏗️ CREATE: Build new table with current data\n").data
        ++ (cs ++ ("\nAS (\n      ").data))
      = (";" ++ "\n\n-- 🏗️ CREATE: Build new table with current data\n").data
        ++ (cs ++ ("\nAS (\n      ").data) := rfl
  rw [h2]
  refine noOccLitAppend hSB3 hSB3k ?_
  have h3 : ("\nAS (\n      ").data = '\n' :: ("AS (\n      ").data := rfl
  rw [h3]
  refine noOccVarAppend hnl hcs ?_
  rw [← h3]
  exact hB4

/-- C10: for a validated `type = "incremental"` configuration with truthy
`fullRefresh`, `create` routes to the snapshot pattern: the result wraps
`SnapshotPattern.generate` (with `fullRefresh = true` and no incremental
metadata), the emitted preSQL is the banner comment followed by
`DROP TABLE IF EXISTS <target>;` and then a direct `CREATE TABLE <target>`
statement, and neither preSQL nor postSQL contains a merge (`WHEN MATCHED`),
a staging-table creation (`CREATE OR REPLACE TABLE`), or the runtime existence
branch variable (`target_exists`). -/
theorem claim_C10 (t cd : String) (cfg : JSConfig) (env : Env) (clk : Clock)
    (hv : (ConfigValidator.validateFactoryConfig cfg t).isValid = true)
    (hty : cfg.type = some "incremental")
    (hfr : jsBoolTruthy cfg.fullRefresh = true)
    (htsp : ' ' ∉ t.data)
    (htte : ¬ "target_exists".data <:+: t.data)
    (hdC : 'C' ∉ clk.dateStr.data)
    (hdW : 'W' ∉ clk.dateStr.data)
    (hdU : '_' ∉ clk.dateStr.data)
    (hcs1 : ¬ "CREATE OR REPLACE TABLE".data <:+: (IncrementalPattern.snapshotCreateStatement t
      { cfg with description := some (jsStrOr cfg.description cd) }).data)
    (hcs2 : ¬ "WHEN MATCHED".data <:+: (IncrementalPattern.snapshotCreateStatement t
      { cfg with description := some (jsStrOr cfg.description cd) }).data)
    (hcs3 : ¬ "target_exists".data <:+: (IncrementalPattern.snapshotCreateStatement t
      { cfg with description := some (jsStrOr cfg.description cd) }).data) :
    AdvancedFactory.create t cfg cd env clk = Except.ok
      { model := SnapshotPattern.generate t
          { cfg with description := some (jsStrOr cfg.description cd) } clk
        fullRefresh := true
        preSQL := (SnapshotPattern.generate t
          { cfg with description := some (jsStrOr cfg.description cd) } clk).preSQL
        postSQL := (SnapshotPattern.generate t
          { cfg with description := some (jsStrOr cfg.description cd) } clk).postSQL
        metadata := none } ∧
    (SnapshotPattern.generate t
        { cfg with description := some (jsStrOr cfg.description cd) } clk).preSQL
      = "\n/*\n┌────────────\u2500────────────\u2500────────────\u2500────────────\u2500───────────┐\n│                  📸 SNAPSHOT PATTERN                    │\n│ Mode: Full Table Refresh                               │\n│ Generated: "
        ++ jsPadEnd clk.dateStr 37
        ++ " │\n└────────────\u2500────────────\u2500────────────\u2500────────────\u2500───────────┘\n*/\n\n-- 🔄 CLEANUP: Drop existing table to handle schema changes\n"
        ++ ("DROP TABLE IF EXISTS " ++ t ++ ";")
        ++ "\n\n-- 🏗️ CREATE: Build new table with current data\n"
        ++ IncrementalPattern.snapshotCreateStatement t
          { cfg with description := some (jsStrOr cfg.description cd) }
        ++ "\nAS (\n      " ∧
    (∃ rest, IncrementalPattern.snapshotCreateStatement t
        { cfg with description := some (jsStrOr cfg.description cd) }
      = "CREATE TABLE " ++ t ++ rest) ∧
    ¬ "CREATE OR REPLACE TABLE".data <:+: (SnapshotPattern.generate t
      { cfg with description := some (jsStrOr cfg.description cd) } clk).preSQL.data ∧
    ¬ "WHEN MATCHED".data <:+: (SnapshotPattern.generate t
      { cfg with description := some (jsStrOr cfg.description cd) } clk).preSQL.data ∧
    ¬ "target_exists".data <:+: (SnapshotPattern.generate t
      { cfg with description := some (jsStrOr cfg.description cd) } clk).preSQL.data ∧
    ¬ "CREATE OR REPLACE TABLE".data <:+: (SnapshotPattern.generate t
      { cfg with description := some (jsStrOr cfg.description cd) } clk).postSQL.data ∧
    ¬ "WHEN MATCHED".data <:+: (SnapshotPattern.generate t
      { cfg with description := some (jsStrOr cfg.description cd) } clk).postSQL.data ∧
    ¬ "target_exists".data <:+: (SnapshotPattern.generate t
      { cfg with description := some (jsStrOr cfg.description cd) } clk).postSQL.data := by
  have hvv : (!(ConfigValidator.validateFactoryConfig cfg t).isValid) = false := by
    rw [hv]; rfl
  have hpost : (SnapshotPattern.generate t
      { cfg with description := some (jsStrOr cfg.description cd) } clk).postSQL
      = SnapshotPattern._buildPostSQL := rfl
  have hd : (SnapshotPattern.generate t
        { cfg with description := some (jsStrOr cfg.description cd) } clk).preSQL.data
      = ("\n/*\n┌────────────\u2500────────────\u2500────────────\u2500────────────\u2500───────────┐\n│                  📸 SNAPSHOT PATTERN                    │\n│ Mode: Full Table Refresh                               │\n│ Generated: ").data
        ++ ((jsPadEnd clk.dateStr 37).data
        ++ ((" │\n└────────────\u2500────────────\u2500────────────\u2500────────────\u2500───────────┘\n*/\n\n-- 🔄 CLEANUP: Drop existing table to handle schema changes\n").data
        ++ (("DROP TABLE IF EXISTS ").data
        ++ (t.data
        ++ ((";").data
        ++ (("\n\n-- 🏗️ CREATE: Build new table with current data\n").data
        ++ ((IncrementalPattern.snapshotCreateStatement t
              { cfg with description := some (jsStrOr cfg.description cd) }).data
        ++ ("\nAS (\n      ").data))))))) := by
    simp only [SnapshotPattern.generate, SnapshotPattern._buildPreSQL,
      IncrementalPattern.snapshotCreateStatement, String.data_append, List.append_assoc]
  refine ⟨?_, rfl, ?_, ?_, ?_, ?_, ?_, ?_, ?_⟩
  · simp only [AdvancedFactory.create, hvv, Bool.false_eq_true, if_false, hty, hfr, if_true]
    rfl
  · cases hm : TableBuilder._buildTableMetadata
        { cfg with description := some (jsStrOr cfg.description cd) }.tb == "" with
    | true =>
      refine ⟨TableOptions.build { cfg with description := some (jsStrOr cfg.description cd) }.tb, ?_⟩
      simp only [IncrementalPattern.snapshotCreateStatement, hm, if_true]
    | false =>
      refine ⟨TableOptions.build { cfg with description := some (jsStrOr cfg.description cd) }.tb
        ++ "\n" ++ TableBuilder._buildTableMetadata
          { cfg with description := some (jsStrOr cfg.description cd) }.tb, ?_⟩
      simp only [IncrementalPattern.snapshotCreateStatement, hm, Bool.false_eq_true, if_false]
      apply strExt
      simp only [String.data_append, List.append_assoc]
  · rw [hd]
    exact noOcc_snapshotPreShape _ _ _ (by decide) (by decide)
      (noOccOfMissingChar (by decide) (padNoChar (by decide) hdC))
      (by decide) (by decide) (by decide) (by decide) (by decide) (by decide) (by decide)
      (noOccOfMissingChar (by decide) htsp) (by decide) (by decide) (by decide) hcs1 (by decide)
  · rw [hd]
    exact noOcc_snapshotPreShape _ _ _ (by decide) (by decide)
      (noOccOfMissingChar (by decide) (padNoChar (by decide) hdW))
      (by decide) (by decide) (by decide) (by decide) (by decide) (by decide) (by decide)
      (noOccOfMissingChar (by decide) htsp) (by decide) (by decide) (by decide) hcs2 (by decide)
  · rw [hd]
    exact noOcc_snapshotPreShape _ _ _ (by decide) (by decide)
      (noOccOfMissingChar (by decide) (padNoChar (by decide) hdU))
      (by decide) (by decide) (by decide) (by decide) (by decide) (by decide) (by decide)
      htte (by decide) (by decide) (by decide) hcs3 (by decide)
  · rw [hpost]; decide
  · rw [hpost]; decide
  · rw [hpost]; decide

/-- Witness for C10: a concrete valid incremental configuration with
`fullRefresh = true` routes to the snapshot pattern and its preSQL carries no
`WHEN MATCHED` merge clause. -/
theorem claim_C10_witness :
    ¬ "WHEN MATCHED".data <:+: (SnapshotPattern.generate "proj.ds.tbl"
      { type := some "incremental", uniqueKeys := some ["id"], fullRefresh := some true,
        description := some "" } ⟨"2026-01-01", 0⟩).preSQL.data := by
  have h := claim_C10 "proj.ds.tbl" ""
    { type := some "incremental", uniqueKeys := some ["id"], fullRefresh := some true }
    {} ⟨"2026-01-01", 0⟩ (by decide) rfl rfl (by decide) (by decide) (by decide) (by decide)
    (by decide) (by decide) (by decide) (by decide)
  exact h.2.2.2.2.1
